import Mathlib

/-!
Verification of the Modbus_Proxy firmware core (`main/modbus_rtu.c`,
`main/dtsu666.c`, `main/http_client.c`, `main/modbus_proxy.c`) against its
natural-language specification.

Shallow embedding conventions:
* bytes are `Nat` values `< 256`; frames are `List Nat` whose length is the
  C `len` argument;
* C `uint16_t` / `uint32_t` values are `Nat` with explicit bounds where they
  matter;
* IEEE-754 binary32 values are modelled by their 32-bit patterns (`Nat`
  `< 2^32`); binary32 arithmetic (`+`, `/ 3.0f`, `* -1.0f`) is modelled by
  correctly rounded rational arithmetic on the decoded values, which is
  exactly what IEEE 754 prescribes for these operations.
-/

namespace ModbusProxy


/-- Read a byte of a frame; out-of-range indices give 0 (never reached under
    the length hypotheses used below). -/
def byteAt (l : List Nat) (i : Nat) : Nat := l.getD i 0

/-! ## Checksum codec (`modbus_rtu.c`, `modbus_crc16` / `modbus_validate_crc`) -/

/-- One iteration of the inner bit loop of `modbus_crc16`:
    `if (crc & 1) crc = (crc >> 1) ^ 0xA001; else crc >>= 1;`. -/
def crcRound (crc : Nat) : Nat :=
  if crc % 2 = 1 then (crc / 2) ^^^ 0xA001 else crc / 2

/-- The 8-round inner loop of `modbus_crc16` for one byte, after the initial
    `crc ^= data[i]`. -/
def crcByte (crc b : Nat) : Nat :=
  (crcRound ∘ crcRound ∘ crcRound ∘ crcRound ∘
   crcRound ∘ crcRound ∘ crcRound ∘ crcRound) (crc ^^^ b)

/-- `modbus_crc16(data, len)`: fold of `crcByte` starting from 0xFFFF. -/
def modbus_crc16 (data : List Nat) : Nat :=
  data.foldl crcByte 0xFFFF

/-- `modbus_validate_crc(data, len)`: `len ≥ 2` and the trailing
    little-endian 16-bit word equals `modbus_crc16` of the preceding bytes.
    `len` is the list length. -/
def modbus_validate_crc (data : List Nat) : Bool :=
  if data.length < 2 then false
  else
    (byteAt data (data.length - 2) ||| (byteAt data (data.length - 1) <<< 8))
      == modbus_crc16 (data.take (data.length - 2))

/-- A byte list is a frame iff every byte is `< 256`. -/
def bytesOk (l : List Nat) : Prop := ∀ b ∈ l, b < 256

instance (l : List Nat) : Decidable (bytesOk l) :=
  List.decidableBAll _ l

/-- `frame` with bit `k` of byte `i` flipped. -/
def flipBitAt (l : List Nat) (i k : Nat) : List Nat :=
  l.set i (byteAt l i ^^^ (1 <<< k))

/-! ## IEEE-754 binary32 model

The C sources manipulate `float` values through `union { uint32_t u; float f; }`
reinterpretation.  We model a `float` by its 32-bit pattern (a `Nat < 2^32`)
and the arithmetic used by the sources (`+`, `/ 3.0f`, `* -1.0f`) by correctly
rounded rational arithmetic on the decoded values — exactly the semantics IEEE
754 prescribes for binary32 with round-to-nearest-even. -/

/-- `2^e` as a rational, for an arbitrary integer exponent. -/
def pow2z (e : Int) : ℚ :=
  if 0 ≤ e then ((2 : ℚ) ^ e.toNat) else 1 / (2 : ℚ) ^ (-e).toNat

def signBit (p : Nat) : Nat := p / 2 ^ 31 % 2

def expField (p : Nat) : Nat := p / 2 ^ 23 % 256

def fracField (p : Nat) : Nat := p % 2 ^ 23

def isNaNF32 (p : Nat) : Bool := expField p == 255 && !(fracField p == 0)

def isInfF32 (p : Nat) : Bool := expField p == 255 && fracField p == 0

/-- Decoded rational value of a non-NaN, non-infinite binary32 pattern. -/
def toRatF32 (p : Nat) : ℚ :=
  if signBit p = 1 then
    -(if expField p = 0 then (fracField p : ℚ) * pow2z (-149)
      else ((2 ^ 23 + fracField p : Nat) : ℚ) * pow2z ((expField p : Int) - 150))
  else
    if expField p = 0 then (fracField p : ℚ) * pow2z (-149)
    else ((2 ^ 23 + fracField p : Nat) : ℚ) * pow2z ((expField p : Int) - 150)

/-- Floor of the base-2 logarithm of a natural number (0 for 0), by fuel
    recursion so that it reduces definitionally. -/
def log2fuel : Nat → Nat → Nat
  | 0, _ => 0
  | fuel + 1, n => if n ≤ 1 then 0 else log2fuel fuel (n / 2) + 1

def natLog2 (n : Nat) : Nat := log2fuel n n

/-- Round a nonnegative rational to the nearest natural number, ties to even. -/
def roundHE (x : ℚ) : Nat :=
  if x - (x.floor.toNat : ℚ) < 1 / 2 then x.floor.toNat
  else if 1 / 2 < x - (x.floor.toNat : ℚ) then x.floor.toNat + 1
  else if x.floor.toNat % 2 = 0 then x.floor.toNat else x.floor.toNat + 1

/-- `⌊log₂ a⌋` for a positive rational. -/
def ilog2q (a : ℚ) : Int :=
  if a < pow2z ((natLog2 a.num.toNat : Int) - (natLog2 a.den : Int)) then
    (natLog2 a.num.toNat : Int) - (natLog2 a.den : Int) - 1
  else (natLog2 a.num.toNat : Int) - (natLog2 a.den : Int)

/-- Positive-infinity pattern. -/
def infF32 : Nat := 0x7F800000

/-- Canonical quiet NaN pattern. -/
def qNaNF32 : Nat := 0x7FC00000

/-- Correctly rounded (round-to-nearest, ties-to-even) binary32 magnitude
    pattern of a positive rational; overflows to `infF32`.  In the normal
    range, a mantissa that rounds up to `2^24` carries into the next
    exponent with fraction 0. -/
def roundPosF32 (a : ℚ) : Nat :=
  if a < pow2z (-126) then
    -- subnormal range: fixed grid of step 2^-149
    if roundHE (a / pow2z (-149)) < 2 ^ 23 then roundHE (a / pow2z (-149))
    else 2 ^ 23
  else if roundHE (a / pow2z (ilog2q a - 23)) = 2 ^ 24 then
    if 127 < ilog2q a + 1 then infF32
    else (ilog2q a + 1 + 127).toNat * 2 ^ 23
  else
    if 127 < ilog2q a then infF32
    else (ilog2q a + 127).toNat * 2 ^ 23 +
      (roundHE (a / pow2z (ilog2q a - 23)) - 2 ^ 23)

/-- Correctly rounded binary32 pattern of a rational (sign-magnitude). -/
def roundF32 (q : ℚ) : Nat :=
  if q = 0 then 0
  else if q < 0 then 2 ^ 31 + roundPosF32 (-q)
  else roundPosF32 q

/-- Binary32 addition on patterns (IEEE 754 round-to-nearest-even,
    default exception handling; NaN results take the canonical pattern). -/
def f32add (a b : Nat) : Nat :=
  if isNaNF32 a || isNaNF32 b then qNaNF32
  else if isInfF32 a && isInfF32 b then
    (if signBit a = signBit b then a else qNaNF32)
  else if isInfF32 a then a
  else if isInfF32 b then b
  else if toRatF32 a + toRatF32 b = 0 then
    (if signBit a = 1 && signBit b = 1 then 2 ^ 31 else 0)
  else roundF32 (toRatF32 a + toRatF32 b)

/-- Binary32 division by `3.0f` on patterns (`correction / 3.0f`). -/
def f32divThree (a : Nat) : Nat :=
  if isNaNF32 a then qNaNF32
  else if isInfF32 a then a
  else if toRatF32 a = 0 then a
  else roundF32 (toRatF32 a / 3)

/-- Binary32 multiplication by `-1.0f` on patterns (`value * power_scale`
    with `power_scale = -1.0f`): an exact sign-bit flip on every non-NaN
    value (written arithmetically: `a < 2^31` means the sign bit is 0). -/
def f32mulNegOne (a : Nat) : Nat :=
  if isNaNF32 a then qNaNF32
  else if a < 2 ^ 31 then a + 2 ^ 31 else a - 2 ^ 31

/-- `dtsu666_parse_float32(data, offset)`: big-endian (ABCD) 32-bit pattern
    read, `(data[o] << 24) | (data[o+1] << 16) | (data[o+2] << 8) | data[o+3]`. -/
def dtsu666_parse_float32 (data : List Nat) (offset : Nat) : Nat :=
  (byteAt data offset <<< 24) ||| (byteAt data (offset + 1) <<< 16) |||
    (byteAt data (offset + 2) <<< 8) ||| byteAt data (offset + 3)

/-- `dtsu666_encode_float32(value, data, offset)`: big-endian 32-bit pattern
    store, `data[o+k] = (u >> (24-8k)) & 0xFF`. -/
def dtsu666_encode_float32 (value : Nat) (data : List Nat) (offset : Nat) : List Nat :=
  (((data.set offset ((value >>> 24) &&& 255)).set
      (offset + 1) ((value >>> 16) &&& 255)).set
      (offset + 2) ((value >>> 8) &&& 255)).set
      (offset + 3) (value &&& 255)

/-- `dtsu666_data_t` (`dtsu666.h`): 40 binary32 fields, stored as patterns. -/
structure Dtsu666Data where
  current_L1 : Nat
  current_L2 : Nat
  current_L3 : Nat
  voltage_LN_avg : Nat
  voltage_L1N : Nat
  voltage_L2N : Nat
  voltage_L3N : Nat
  voltage_LL_avg : Nat
  voltage_L1L2 : Nat
  voltage_L2L3 : Nat
  voltage_L3L1 : Nat
  frequency : Nat
  power_total : Nat
  power_L1 : Nat
  power_L2 : Nat
  power_L3 : Nat
  reactive_total : Nat
  reactive_L1 : Nat
  reactive_L2 : Nat
  reactive_L3 : Nat
  apparent_total : Nat
  apparent_L1 : Nat
  apparent_L2 : Nat
  apparent_L3 : Nat
  pf_total : Nat
  pf_L1 : Nat
  pf_L2 : Nat
  pf_L3 : Nat
  demand_total : Nat
  demand_L1 : Nat
  demand_L2 : Nat
  demand_L3 : Nat
  import_total : Nat
  import_L1 : Nat
  import_L2 : Nat
  import_L3 : Nat
  export_total : Nat
  export_L1 : Nat
  export_L2 : Nat
  export_L3 : Nat
deriving Repr, DecidableEq

/-- `dtsu666_parse_response(raw, len, data)`: fails for `len < 165`
    (the NULL-pointer guards have no counterpart for Lean lists); otherwise
    reads 40 sequential big-endian floats from `payload = raw + 3`,
    multiplying the 8 active-power/demand fields by `power_scale = -1.0f`.
    The running `offset` of the source is written out: field `k` sits at
    payload offset `4k`.  `len` is the list length. -/
def dtsu666_parse_response (raw : List Nat) : Option Dtsu666Data :=
  if raw.length < 165 then none
  else
    some {
      current_L1 := dtsu666_parse_float32 (raw.drop 3) 0
      current_L2 := dtsu666_parse_float32 (raw.drop 3) 4
      current_L3 := dtsu666_parse_float32 (raw.drop 3) 8
      voltage_LN_avg := dtsu666_parse_float32 (raw.drop 3) 12
      voltage_L1N := dtsu666_parse_float32 (raw.drop 3) 16
      voltage_L2N := dtsu666_parse_float32 (raw.drop 3) 20
      voltage_L3N := dtsu666_parse_float32 (raw.drop 3) 24
      voltage_LL_avg := dtsu666_parse_float32 (raw.drop 3) 28
      voltage_L1L2 := dtsu666_parse_float32 (raw.drop 3) 32
      voltage_L2L3 := dtsu666_parse_float32 (raw.drop 3) 36
      voltage_L3L1 := dtsu666_parse_float32 (raw.drop 3) 40
      frequency := dtsu666_parse_float32 (raw.drop 3) 44
      power_total := f32mulNegOne (dtsu666_parse_float32 (raw.drop 3) 48)
      power_L1 := f32mulNegOne (dtsu666_parse_float32 (raw.drop 3) 52)
      power_L2 := f32mulNegOne (dtsu666_parse_float32 (raw.drop 3) 56)
      power_L3 := f32mulNegOne (dtsu666_parse_float32 (raw.drop 3) 60)
      reactive_total := dtsu666_parse_float32 (raw.drop 3) 64
      reactive_L1 := dtsu666_parse_float32 (raw.drop 3) 68
      reactive_L2 := dtsu666_parse_float32 (raw.drop 3) 72
      reactive_L3 := dtsu666_parse_float32 (raw.drop 3) 76
      apparent_total := dtsu666_parse_float32 (raw.drop 3) 80
      apparent_L1 := dtsu666_parse_float32 (raw.drop 3) 84
      apparent_L2 := dtsu666_parse_float32 (raw.drop 3) 88
      apparent_L3 := dtsu666_parse_float32 (raw.drop 3) 92
      pf_total := dtsu666_parse_float32 (raw.drop 3) 96
      pf_L1 := dtsu666_parse_float32 (raw.drop 3) 100
      pf_L2 := dtsu666_parse_float32 (raw.drop 3) 104
      pf_L3 := dtsu666_parse_float32 (raw.drop 3) 108
      demand_total := f32mulNegOne (dtsu666_parse_float32 (raw.drop 3) 112)
      demand_L1 := f32mulNegOne (dtsu666_parse_float32 (raw.drop 3) 116)
      demand_L2 := f32mulNegOne (dtsu666_parse_float32 (raw.drop 3) 120)
      demand_L3 := f32mulNegOne (dtsu666_parse_float32 (raw.drop 3) 124)
      import_total := dtsu666_parse_float32 (raw.drop 3) 128
      import_L1 := dtsu666_parse_float32 (raw.drop 3) 132
      import_L2 := dtsu666_parse_float32 (raw.drop 3) 136
      import_L3 := dtsu666_parse_float32 (raw.drop 3) 140
      export_total := dtsu666_parse_float32 (raw.drop 3) 144
      export_L1 := dtsu666_parse_float32 (raw.drop 3) 148
      export_L2 := dtsu666_parse_float32 (raw.drop 3) 152
      export_L3 := dtsu666_parse_float32 (raw.drop 3) 156 }

/-- One in-place read-add-write of `dtsu666_apply_power_correction`:
    assemble the big-endian pattern at absolute offset `o`, `converter.f += v`,
    store the bytes back (the inline converter code of the source is
    byte-identical to `dtsu666_parse_float32` / `dtsu666_encode_float32`). -/
def rmwAddF32 (l : List Nat) (o v : Nat) : List Nat :=
  dtsu666_encode_float32 (f32add (dtsu666_parse_float32 l o) v) l o

/-- `dtsu666_apply_power_correction(raw, len, correction)`: refuses frames
    shorter than 165 bytes; otherwise adds `correction / 3.0f` to the three
    per-phase power fields (payload offsets 52, 56, 60) and demand fields
    (116, 120, 124), adds `correction` to the totals (48 and 112), in source
    order, then recomputes the CRC over the first `len - 2` bytes and stores
    it little-endian in the last two bytes.  `payload = raw + 3`, so payload
    offset `k` is absolute offset `3 + k`; `len` is the list length.
    `applyFields` is the eight field rewrites in source order. -/
def applyFields (raw : List Nat) (correction : Nat) : List Nat :=
  rmwAddF32 (rmwAddF32 (rmwAddF32 (rmwAddF32 (rmwAddF32 (rmwAddF32 (rmwAddF32
    (rmwAddF32 raw (3 + 52) (f32divThree correction))
    (3 + 56) (f32divThree correction))
    (3 + 60) (f32divThree correction))
    (3 + 48) correction)
    (3 + 116) (f32divThree correction))
    (3 + 120) (f32divThree correction))
    (3 + 124) (f32divThree correction))
    (3 + 112) correction

def dtsu666_apply_power_correction (raw : List Nat) (correction : Nat) :
    Bool × List Nat :=
  if raw.length < 165 then (false, raw)
  else
    (true,
      ((applyFields raw correction).set (raw.length - 2)
        (modbus_crc16 ((applyFields raw correction).take (raw.length - 2)) &&& 255)).set
        (raw.length - 1)
        ((modbus_crc16 ((applyFields raw correction).take (raw.length - 2)) >>> 8) &&& 255))

/-- A concrete 165-byte DTSU-666 function-0x03 reply: slave 11, byte
    count 160, decoded `power_total` 5000.0 W (wire value -5000.0),
    per-phase powers 2000/1500/1500 W, demand fields likewise, valid CRC. -/
def frameB : List Nat := [11, 3, 160, 63, 128, 0, 0, 64, 0, 0, 0, 64, 64, 0, 0, 67, 102, 0, 0, 67, 102, 0, 0, 67, 102, 0, 0, 67, 102, 0, 0, 67, 102, 0, 0, 67, 102, 0, 0, 67, 102, 0, 0, 67, 102, 0, 0, 66, 72, 0, 0, 197, 156, 64, 0, 196, 250, 0, 0, 196, 187, 128, 0, 196, 187, 128, 0, 66, 200, 0, 0, 66, 200, 0, 0, 66, 200, 0, 0, 66, 200, 0, 0, 66, 200, 0, 0, 66, 200, 0, 0, 66, 200, 0, 0, 66, 200, 0, 0, 63, 0, 0, 0, 63, 0, 0, 0, 63, 0, 0, 0, 63, 0, 0, 0, 197, 156, 64, 0, 196, 250, 0, 0, 196, 187, 128, 0, 196, 187, 128, 0, 65, 72, 0, 0, 65, 72, 0, 0, 65, 72, 0, 0, 65, 72, 0, 0, 65, 72, 0, 0, 65, 72, 0, 0, 65, 72, 0, 0, 65, 72, 0, 0, 118, 17]

/-- `frameB` with its final CRC byte zeroed: an invalid trailer. -/
def frameBbad : List Nat := frameB.set 164 0

/-! ## Frame parser (`modbus_rtu.c`, `modbus_parse`) -/

/-- `modbus_msg_type_t`. -/
inductive MbType where
  | unknown
  | request
  | reply
  | exception
deriving Repr, DecidableEq

/-- `modbus_message_t` (without the `raw` pointer, which the orchestrator
    model threads explicitly); `memset(msg, 0, ...)` provides the zero
    defaults. -/
structure ModbusMessage where
  valid : Bool := false
  id : Nat := 0
  fc : Nat := 0
  type : MbType := .unknown
  len : Nat := 0
  startAddr : Nat := 0
  qty : Nat := 0
  byteCount : Nat := 0
  wrAddr : Nat := 0
  wrValue : Nat := 0
  wrQty : Nat := 0
  wrByteCount : Nat := 0
  exCode : Nat := 0
deriving Repr, DecidableEq

/-- `modbus_be16(&frame[i])`. -/
def modbus_be16 (frame : List Nat) (i : Nat) : Nat :=
  (byteAt frame i <<< 8) ||| byteAt frame (i + 1)

/-- `modbus_parse(frame, len, msg)`: `none` models `return false` (the
    caller then ignores the zeroed `msg`); `len` is the list length. -/
def modbus_parse (frame : List Nat) : Option ModbusMessage :=
  if frame.length < 4 then none
  else if modbus_validate_crc frame = false then none
  else if (byteAt frame 1 &&& 128) ≠ 0 ∧ 5 ≤ frame.length then
    some { valid := true, id := byteAt frame 0, fc := byteAt frame 1 &&& 127,
           len := frame.length, type := .exception, exCode := byteAt frame 2 }
  else if byteAt frame 1 = 3 ∨ byteAt frame 1 = 4 then
    if frame.length = 8 then
      some { valid := true, id := byteAt frame 0, fc := byteAt frame 1,
             len := frame.length, type := .request,
             startAddr := modbus_be16 frame 2, qty := modbus_be16 frame 4 }
    else if frame.length = byteAt frame 2 + 5 then
      some { valid := true, id := byteAt frame 0, fc := byteAt frame 1,
             len := frame.length, type := .reply, byteCount := byteAt frame 2 }
    else
      some { valid := true, id := byteAt frame 0, fc := byteAt frame 1,
             len := frame.length, type := .unknown }
  else if byteAt frame 1 = 6 then
    if frame.length = 8 then
      some { valid := true, id := byteAt frame 0, fc := byteAt frame 1,
             len := frame.length, type := .request,
             wrAddr := modbus_be16 frame 2, wrValue := modbus_be16 frame 4 }
    else
      some { valid := true, id := byteAt frame 0, fc := byteAt frame 1,
             len := frame.length, type := .unknown }
  else if byteAt frame 1 = 16 then
    if frame.length = 8 then
      some { valid := true, id := byteAt frame 0, fc := byteAt frame 1,
             len := frame.length, type := .reply,
             wrAddr := modbus_be16 frame 2, wrQty := modbus_be16 frame 4 }
    else if 9 ≤ frame.length ∧ frame.length = byteAt frame 6 + 9 then
      some { valid := true, id := byteAt frame 0, fc := byteAt frame 1,
             len := frame.length, type := .request,
             wrAddr := modbus_be16 frame 2, wrQty := modbus_be16 frame 4,
             wrByteCount := byteAt frame 6 }
    else
      some { valid := true, id := byteAt frame 0, fc := byteAt frame 1,
             len := frame.length, type := .unknown }
  else
    some { valid := true, id := byteAt frame 0, fc := byteAt frame 1,
           len := frame.length, type := .unknown }

/-- An 8-byte write-single-register frame (function 0x06) with valid CRC. -/
def frame06 : List Nat := [1, 6, 0, 1, 0, 2, 89, 203]

/-- A 5-byte exception reply from slave 11 (0x83 = 0x03 | 0x80,
    exception code 0x02) with valid CRC. -/
def frameExc : List Nat := [11, 131, 2, 224, 243]

/-! ## Auxiliary power source and correction policy
    (`http_client.c`, `config.h`) -/

/-- Binary32 comparison `a <= b` (C `<=` on floats): false if either
    operand is NaN, otherwise the order of the decoded extended reals. -/
def f32le (a b : Nat) : Bool :=
  if isNaNF32 a || isNaNF32 b then false
  else if isInfF32 a then
    (if signBit a = 1 then true else isInfF32 b && signBit b == 0)
  else if isInfF32 b then signBit b == 0
  else toRatF32 a ≤ toRatF32 b

/-- Binary32 comparison `a >= b`. -/
def f32ge (a b : Nat) : Bool := f32le b a

/-- `fabsf`: clear the sign bit. -/
def f32abs (a : Nat) : Nat := a % 2 ^ 31

/-- `CORRECTION_THRESHOLD = 1000.0f` (`config.h`), as a binary32 pattern. -/
def CORRECTION_THRESHOLD : Nat := 0x447A0000

/-- `shared_evcc_data_t`, narrowed to what the proxy path reads.  The mutex
    acquisition and the age check `(now - timestamp) <= EVCC_DATA_MAX_AGE_MS`
    of `http_get_evcc_data` are modelled by the single flag `fresh`. -/
structure EvccState where
  chargePower : Nat
  valid : Bool
  fresh : Bool
deriving Repr, DecidableEq

/-- `http_get_evcc_data`: `(*charge_power, *valid)` after the call — the
    preset `(0.0f, false)` unless the stored data is valid and fresh. -/
def http_get_evcc_data (e : EvccState) : Nat × Bool :=
  if e.valid && e.fresh then (e.chargePower, true) else (0, false)

/-- `http_calculate_power_correction`: 0.0f when the reading is unavailable
    or `fabsf(wallbox_power) <= CORRECTION_THRESHOLD`; otherwise the wallbox
    power itself. -/
def http_calculate_power_correction (e : EvccState) : Nat :=
  if (http_get_evcc_data e).2 = false ||
      f32le (f32abs (http_get_evcc_data e).1) CORRECTION_THRESHOLD then 0
  else (http_get_evcc_data e).1

/-! ## Proxy orchestrator (`modbus_proxy.c`, `modbus_proxy_task`),
    one loop iteration -/

/-- `shared_dtsu_data_t` (without the mutex handle). -/
structure SharedDtsu where
  valid : Bool
  timestamp : Nat
  response_buffer : List Nat
  response_length : Nat
  parsed_data : Dtsu666Data
  update_count : Nat
deriving Repr, DecidableEq

/-- What one loop iteration of `modbus_proxy_task` did: the bytes written to
    the downstream (DTU) and upstream (SUN) links, the shared store, and the
    `system_health` counters it touches. -/
structure ProxyOutcome where
  forwardedDownstream : Option (List Nat)
  forwardedUpstream : Option (List Nat)
  store : SharedDtsu
  proxyErrors : Nat
  dtsuUpdates : Nat
deriving Repr, DecidableEq

/-- Lines 71–87 of `modbus_proxy.c`: evaluate the correction policy and, if
    active, copy the reply and run the engine on the copy, re-decoding it
    for publication.  Returns (the buffer `dtu_msg.raw` now points to,
    `final_data`, `correction_applied`). -/
def correctionPath (dtuBytes : List Nat) (data : Dtsu666Data) (e : EvccState) :
    List Nat × Dtsu666Data × Bool :=
  if f32ge (f32abs (http_calculate_power_correction e)) CORRECTION_THRESHOLD then
    if (dtsu666_apply_power_correction dtuBytes (http_calculate_power_correction e)).1 then
      match dtsu666_parse_response
          (dtsu666_apply_power_correction dtuBytes (http_calculate_power_correction e)).2 with
      | some fd =>
          ((dtsu666_apply_power_correction dtuBytes (http_calculate_power_correction e)).2,
           fd, true)
      | none =>
          ((dtsu666_apply_power_correction dtuBytes (http_calculate_power_correction e)).2,
           data, false)
    else (dtuBytes, data, false)
  else (dtuBytes, data, false)

/-- One iteration of the `while(1)` body of `modbus_proxy_task`.
    `sunRead` / `dtuRead` are the raw frames delivered by the two
    `modbus_read` calls (`none` = timeout; parse failure is handled here as
    in `modbus_read`); `now` is `esp_timer_get_time() / 1000`; the store
    mutex acquisition (10 ms timeout) is modelled as succeeding.  LED, log
    and MQTT calls have no observable effect on this state. -/
def modbus_proxy_step (sunRead dtuRead : Option (List Nat)) (e : EvccState)
    (store : SharedDtsu) (errors updates now : Nat) : ProxyOutcome :=
  match sunRead with
  | none => ⟨none, none, store, errors, updates⟩
  | some sunBytes =>
    match modbus_parse sunBytes with
    | none => ⟨none, none, store, errors, updates⟩
    | some sunMsg =>
      if sunMsg.id = 11 ∧ sunMsg.type = .request then
        match dtuRead with
        | none => ⟨some sunBytes, none, store, errors + 1, updates⟩
        | some dtuBytes =>
          match modbus_parse dtuBytes with
          | none => ⟨some sunBytes, none, store, errors + 1, updates⟩
          | some dtuMsg =>
            if dtuMsg.type = .exception then
              ⟨some sunBytes, some dtuBytes, store, errors + 1, updates⟩
            else if dtuMsg.fc = 3 ∧ 165 ≤ dtuMsg.len then
              match dtsu666_parse_response dtuBytes with
              | none => ⟨some sunBytes, some dtuBytes, store, errors, updates⟩
              | some dtsuData =>
                ⟨some sunBytes, some (correctionPath dtuBytes dtsuData e).1,
                 { valid := true, timestamp := now,
                   response_buffer := (correctionPath dtuBytes dtsuData e).1,
                   response_length := dtuMsg.len,
                   parsed_data := (correctionPath dtuBytes dtsuData e).2.1,
                   update_count := store.update_count + 1 },
                 errors, updates + 1⟩
            else ⟨some sunBytes, some dtuBytes, store, errors, updates⟩
      else ⟨none, none, store, errors, updates⟩

/-! ### Exception pass-through (C9) -/

/-- A CRC-valid 8-byte function-0x03 read request addressed to slave 11
    (`[11, 3, start 0, quantity 40, CRC]`). -/
def frameReq11 : List Nat := [11, 3, 0, 0, 0, 40, 69, 126]

/-- An all-zero meter record, for concrete store states. -/
def dtsuZero : Dtsu666Data :=
  ⟨0, 0, 0, 0, 0, 0, 0, 0, 0, 0, 0, 0, 0, 0, 0, 0, 0, 0, 0, 0,
   0, 0, 0, 0, 0, 0, 0, 0, 0, 0, 0, 0, 0, 0, 0, 0, 0, 0, 0, 0⟩

/-- An empty shared store, for concrete witnesses. -/
def storeZero : SharedDtsu :=
  { valid := false, timestamp := 0, response_buffer := [], response_length := 0,
    parsed_data := dtsuZero, update_count := 0 }

/-! ### Meter-data path length bound (C4) -/

/-- A CRC-valid 166-byte function-0x03 reply from slave 11: byte count 161,
    161 zero data bytes, valid trailer.  It fits the 256-byte link buffer of
    `modbus_read` (`MODBUS_BUF_SIZE`), parses as a reply and passes the
    `fc == 0x03 && len >= 165` guard of `modbus_proxy_task`. -/
def frame166 : List Nat := [11, 3, 161] ++ List.replicate 161 0 ++ [160, 246]

/-- An idle auxiliary-power source (no valid, fresh reading). -/
def evccIdle : EvccState := { chargePower := 0, valid := false, fresh := false }

/-- The decode of the all-zero payload: every field `0.0f` except the eight
    power/demand fields, which `* power_scale` turns into `-0.0f` = `2^31`. -/
def dtsuZeroNeg : Dtsu666Data :=
  { dtsuZero with
    power_total := 2 ^ 31, power_L1 := 2 ^ 31, power_L2 := 2 ^ 31,
    power_L3 := 2 ^ 31,
    demand_total := 2 ^ 31, demand_L1 := 2 ^ 31, demand_L2 := 2 ^ 31,
    demand_L3 := 2 ^ 31 }

/-! ### End-to-end corrected transaction (C1) -/

/-- The auxiliary source reporting a valid, fresh `3000.0f` wallbox power. -/
def evcc3000 : EvccState := { chargePower := 0x453B8000, valid := true, fresh := true }

/-- The decode of `frameB`: `power_total = 5000.0f`, per-phase powers
    `2000.0f`, `1500.0f`, `1500.0f` (patterns; demand mirrors power). -/
def dataB : Dtsu666Data :=
  {
    current_L1 := 1065353216, current_L2 := 1073741824,
    current_L3 := 1077936128, voltage_LN_avg := 1130758144,
    voltage_L1N := 1130758144, voltage_L2N := 1130758144,
    voltage_L3N := 1130758144, voltage_LL_avg := 1130758144,
    voltage_L1L2 := 1130758144, voltage_L2L3 := 1130758144,
    voltage_L3L1 := 1130758144, frequency := 1112014848,
    power_total := 1167867904, power_L1 := 1157234688,
    power_L2 := 1153138688, power_L3 := 1153138688,
    reactive_total := 1120403456, reactive_L1 := 1120403456,
    reactive_L2 := 1120403456, reactive_L3 := 1120403456,
    apparent_total := 1120403456, apparent_L1 := 1120403456,
    apparent_L2 := 1120403456, apparent_L3 := 1120403456,
    pf_total := 1056964608, pf_L1 := 1056964608, pf_L2 := 1056964608,
    pf_L3 := 1056964608, demand_total := 1167867904, demand_L1 := 1157234688,
    demand_L2 := 1153138688, demand_L3 := 1153138688,
    import_total := 1095237632, import_L1 := 1095237632,
    import_L2 := 1095237632, import_L3 := 1095237632,
    export_total := 1095237632, export_L1 := 1095237632,
    export_L2 := 1095237632, export_L3 := 1095237632 }

/-- `applyFields frameB 3000.0f`: the eight wire floats corrected, the old
    CRC trailer `[118, 17]` still in place. -/
def frameBmid : List Nat := [11, 3, 160, 63, 128, 0, 0, 64, 0, 0, 0, 64, 64, 0, 0, 67, 102, 0, 0, 67, 102, 0, 0, 67, 102, 0, 0, 67, 102, 0, 0, 67, 102, 0, 0, 67, 102, 0, 0, 67, 102, 0, 0, 67, 102, 0, 0, 66, 72, 0, 0, 196, 250, 0, 0, 196, 122, 0, 0, 195, 250, 0, 0, 195, 250, 0, 0, 66, 200, 0, 0, 66, 200, 0, 0, 66, 200, 0, 0, 66, 200, 0, 0, 66, 200, 0, 0, 66, 200, 0, 0, 66, 200, 0, 0, 66, 200, 0, 0, 63, 0, 0, 0, 63, 0, 0, 0, 63, 0, 0, 0, 63, 0, 0, 0, 196, 250, 0, 0, 196, 122, 0, 0, 195, 250, 0, 0, 195, 250, 0, 0, 65, 72, 0, 0, 65, 72, 0, 0, 65, 72, 0, 0, 65, 72, 0, 0, 65, 72, 0, 0, 65, 72, 0, 0, 65, 72, 0, 0, 65, 72, 0, 0, 118, 17]

/-- The engine's output frame: corrected floats and the recomputed CRC
    trailer `[110, 43]`. -/
def frameBcorr : List Nat := [11, 3, 160, 63, 128, 0, 0, 64, 0, 0, 0, 64, 64, 0, 0, 67, 102, 0, 0, 67, 102, 0, 0, 67, 102, 0, 0, 67, 102, 0, 0, 67, 102, 0, 0, 67, 102, 0, 0, 67, 102, 0, 0, 67, 102, 0, 0, 66, 72, 0, 0, 196, 250, 0, 0, 196, 122, 0, 0, 195, 250, 0, 0, 195, 250, 0, 0, 66, 200, 0, 0, 66, 200, 0, 0, 66, 200, 0, 0, 66, 200, 0, 0, 66, 200, 0, 0, 66, 200, 0, 0, 66, 200, 0, 0, 66, 200, 0, 0, 63, 0, 0, 0, 63, 0, 0, 0, 63, 0, 0, 0, 63, 0, 0, 0, 196, 250, 0, 0, 196, 122, 0, 0, 195, 250, 0, 0, 195, 250, 0, 0, 65, 72, 0, 0, 65, 72, 0, 0, 65, 72, 0, 0, 65, 72, 0, 0, 65, 72, 0, 0, 65, 72, 0, 0, 65, 72, 0, 0, 65, 72, 0, 0, 110, 43]

/-- The decode of `frameBcorr`: `power_total = 2000.0f`, per-phase powers
    `1000.0f`, `500.0f`, `500.0f`. -/
def dataBcorr : Dtsu666Data :=
  {
    current_L1 := 1065353216, current_L2 := 1073741824,
    current_L3 := 1077936128, voltage_LN_avg := 1130758144,
    voltage_L1N := 1130758144, voltage_L2N := 1130758144,
    voltage_L3N := 1130758144, voltage_LL_avg := 1130758144,
    voltage_L1L2 := 1130758144, voltage_L2L3 := 1130758144,
    voltage_L3L1 := 1130758144, frequency := 1112014848,
    power_total := 1157234688, power_L1 := 1148846080,
    power_L2 := 1140457472, power_L3 := 1140457472,
    reactive_total := 1120403456, reactive_L1 := 1120403456,
    reactive_L2 := 1120403456, reactive_L3 := 1120403456,
    apparent_total := 1120403456, apparent_L1 := 1120403456,
    apparent_L2 := 1120403456, apparent_L3 := 1120403456,
    pf_total := 1056964608, pf_L1 := 1056964608, pf_L2 := 1056964608,
    pf_L3 := 1056964608, demand_total := 1157234688, demand_L1 := 1148846080,
    demand_L2 := 1140457472, demand_L3 := 1140457472,
    import_total := 1095237632, import_L1 := 1095237632,
    import_L2 := 1095237632, import_L3 := 1095237632,
    export_total := 1095237632, export_L1 := 1095237632,
    export_L2 := 1095237632, export_L3 := 1095237632 }

/-! ### Reading codec (C7): the full-reading encoder
    `encodeDTSU666Response` of `Modbus_ProxyV1/src/dtsu666.cpp`
    (byte order `DTSU_BYTE_ORDER_ABCD`; its `encodeFloat32` is byte-for-byte
    `dtsu666_encode_float32`). -/

/-- The 40 wire values written by `encodeDTSU666Response`
    (`Modbus_ProxyV1/src/dtsu666.cpp`, lines 211–258) in call order, with
    `* power_scale` (`power_scale = -1.0f`) applied to the 8 power/demand
    fields on the way out. -/
def fieldsOf (r : Dtsu666Data) : List Nat :=
  [r.current_L1,
   r.current_L2,
   r.current_L3,
   r.voltage_LN_avg,
   r.voltage_L1N,
   r.voltage_L2N,
   r.voltage_L3N,
   r.voltage_LL_avg,
   r.voltage_L1L2,
   r.voltage_L2L3,
   r.voltage_L3L1,
   r.frequency,
   f32mulNegOne r.power_total,
   f32mulNegOne r.power_L1,
   f32mulNegOne r.power_L2,
   f32mulNegOne r.power_L3,
   r.reactive_total,
   r.reactive_L1,
   r.reactive_L2,
   r.reactive_L3,
   r.apparent_total,
   r.apparent_L1,
   r.apparent_L2,
   r.apparent_L3,
   r.pf_total,
   r.pf_L1,
   r.pf_L2,
   r.pf_L3,
   f32mulNegOne r.demand_total,
   f32mulNegOne r.demand_L1,
   f32mulNegOne r.demand_L2,
   f32mulNegOne r.demand_L3,
   r.import_total,
   r.import_L1,
   r.import_L2,
   r.import_L3,
   r.export_total,
   r.export_L1,
   r.export_L2,
   r.export_L3]

/-- The 8 fields that carry the `power_scale` sign flip. -/
def powerFields (r : Dtsu666Data) : List Nat :=
  [r.power_total, r.power_L1, r.power_L2, r.power_L3,
   r.demand_total, r.demand_L1, r.demand_L2, r.demand_L3]

/-- A run of consecutive `encodeFloat32` stores: `encAll vs l o` writes the
    values `vs` at offsets `o, o + 4, o + 8, …` — the shape of the
    straight-line call sequence of `encodeDTSU666Response`. -/
def encAll : List Nat → List Nat → Nat → List Nat
  | [], l, _ => l
  | v :: vs, l, o => encAll vs (dtsu666_encode_float32 v l o) (o + 4)

/-- The header stores `buffer[0..2] = 0x0B, 0x03, 0xA0` and the 40
    `encodeFloat32(…, buffer + 3, offset)` calls of `encodeDTSU666Response`,
    in source order (`offset` runs 0, 4, …, 156, so the absolute positions
    are 3, 7, …, 159). -/
def encodeFields (data : Dtsu666Data) (buffer : List Nat) : List Nat :=
  dtsu666_encode_float32 data.export_L3 (
  dtsu666_encode_float32 data.export_L2 (
  dtsu666_encode_float32 data.export_L1 (
  dtsu666_encode_float32 data.export_total (
  dtsu666_encode_float32 data.import_L3 (
  dtsu666_encode_float32 data.import_L2 (
  dtsu666_encode_float32 data.import_L1 (
  dtsu666_encode_float32 data.import_total (
  dtsu666_encode_float32 (f32mulNegOne data.demand_L3) (
  dtsu666_encode_float32 (f32mulNegOne data.demand_L2) (
  dtsu666_encode_float32 (f32mulNegOne data.demand_L1) (
  dtsu666_encode_float32 (f32mulNegOne data.demand_total) (
  dtsu666_encode_float32 data.pf_L3 (
  dtsu666_encode_float32 data.pf_L2 (
  dtsu666_encode_float32 data.pf_L1 (
  dtsu666_encode_float32 data.pf_total (
  dtsu666_encode_float32 data.apparent_L3 (
  dtsu666_encode_float32 data.apparent_L2 (
  dtsu666_encode_float32 data.apparent_L1 (
  dtsu666_encode_float32 data.apparent_total (
  dtsu666_encode_float32 data.reactive_L3 (
  dtsu666_encode_float32 data.reactive_L2 (
  dtsu666_encode_float32 data.reactive_L1 (
  dtsu666_encode_float32 data.reactive_total (
  dtsu666_encode_float32 (f32mulNegOne data.power_L3) (
  dtsu666_encode_float32 (f32mulNegOne data.power_L2) (
  dtsu666_encode_float32 (f32mulNegOne data.power_L1) (
  dtsu666_encode_float32 (f32mulNegOne data.power_total) (
  dtsu666_encode_float32 data.frequency (
  dtsu666_encode_float32 data.voltage_L3L1 (
  dtsu666_encode_float32 data.voltage_L2L3 (
  dtsu666_encode_float32 data.voltage_L1L2 (
  dtsu666_encode_float32 data.voltage_LL_avg (
  dtsu666_encode_float32 data.voltage_L3N (
  dtsu666_encode_float32 data.voltage_L2N (
  dtsu666_encode_float32 data.voltage_L1N (
  dtsu666_encode_float32 data.voltage_LN_avg (
  dtsu666_encode_float32 data.current_L3 (
  dtsu666_encode_float32 data.current_L2 (
  dtsu666_encode_float32 data.current_L1 (
  ((buffer.set 0 0x0B).set 1 0x03).set 2 0xA0
  ) 3) 7) 11) 15) 19) 23) 27) 31) 35) 39) 43) 47) 51) 55) 59) 63) 67) 71) 75) 79) 83) 87) 91) 95) 99) 103) 107) 111) 115) 119) 123) 127) 131) 135) 139) 143) 147) 151) 155) 159

/-- `encodeDTSU666Response(data, buffer, bufferSize)`
    (`Modbus_ProxyV1/src/dtsu666.cpp`, lines 199–278): `none` models
    `return false` for `bufferSize < 165`; otherwise the header and the 40
    fields are stored, the CRC16 of the first 163 bytes is computed with the
    inlined Modbus loop, and the trailer is written little-endian at bytes
    163/164.  `bufferSize` is the list length. -/
def encodeDTSU666Response (data : Dtsu666Data) (buffer : List Nat) : Option (List Nat) :=
  if buffer.length < 165 then none
  else
    some (((encodeFields data buffer).set 163
      (modbus_crc16 ((encodeFields data buffer).take 163) &&& 255)).set 164
      ((modbus_crc16 ((encodeFields data buffer).take 163) >>> 8) &&& 255))

/-! ## Theorems -/

theorem crcRound_lt (c : Nat) (h : c < 2 ^ 16) : crcRound c < 2 ^ 16 := by
  unfold crcRound
  split
  · exact Nat.xor_lt_two_pow (by omega) (by norm_num)
  · omega

theorem crcByte_lt (c b : Nat) (hc : c < 2 ^ 16) (hb : b < 2 ^ 16) :
    crcByte c b < 2 ^ 16 := by
  unfold crcByte
  simp only [Function.comp_apply]
  have h0 : c ^^^ b < 2 ^ 16 := Nat.xor_lt_two_pow hc hb
  exact crcRound_lt _ (crcRound_lt _ (crcRound_lt _ (crcRound_lt _
    (crcRound_lt _ (crcRound_lt _ (crcRound_lt _ (crcRound_lt _ h0)))))))

theorem modbus_crc16_lt (data : List Nat) (h : ∀ b ∈ data, b < 256) :
    modbus_crc16 data < 2 ^ 16 := by
  unfold modbus_crc16
  have : ∀ (l : List Nat) (c : Nat), c < 2 ^ 16 → (∀ b ∈ l, b < 256) →
      l.foldl crcByte c < 2 ^ 16 := by
    intro l
    induction l with
    | nil => intro c hc _; simpa using hc
    | cons x xs ih =>
        intro c hc hl
        simp only [List.foldl_cons]
        exact ih _ (crcByte_lt _ _ hc (lt_trans (hl x (by simp)) (by norm_num)))
          fun b hb => hl b (by simp [hb])
  exact this data 0xFFFF (by norm_num) h

/-- Disjoint-bit `or` is addition: the low `2^k` bits come from `a`. -/
theorem shiftLeft_lor_eq_add : ∀ (k a b : Nat), a < 2 ^ k → (b <<< k) ||| a = b * 2 ^ k + a := by
  intro k
  induction k with
  | zero =>
      intro a b h
      interval_cases a
      simp [Nat.shiftLeft_eq]
  | succ k ih =>
      intro a b h
      have hb : b <<< (k + 1) = Nat.bit false (b <<< k) := by
        simp [Nat.shiftLeft_eq, Nat.bit_val, pow_succ]
        ring
      have hdecomp : 2 * a.div2 + a.bodd.toNat = a := by
        have h1 := Nat.bit_decomp a
        rw [Nat.bit_val] at h1
        exact h1
      have hdiv : a.div2 < 2 ^ k := by
        have h2 : (2:Nat) ^ (k + 1) = 2 * 2 ^ k := by ring
        cases a.bodd <;> simp [Bool.toNat] at hdecomp <;> omega
      calc (b <<< (k + 1)) ||| a
          = Nat.bit false (b <<< k) ||| Nat.bit a.bodd a.div2 := by
            rw [hb, Nat.bit_decomp]
        _ = Nat.bit a.bodd ((b <<< k) ||| a.div2) := by rw [Nat.lor_bit]; simp
        _ = Nat.bit a.bodd (b * 2 ^ k + a.div2) := by rw [ih _ _ hdiv]
        _ = b * 2 ^ (k + 1) + a := by
            rw [Nat.bit_val]
            have h2 : b * 2 ^ (k + 1) = 2 * (b * 2 ^ k) := by ring
            omega

/-- Bit 15 of `crcRound c` records the parity of `c` (0xA001 has its top bit
    set and `c / 2 < 2^15`), which makes the round reversible. -/
theorem crcRound_div_two_pow_15 (c : Nat) (h : c < 2 ^ 16) :
    crcRound c / 2 ^ 15 = c % 2 := by
  unfold crcRound
  split
  · rename_i hodd
    have hlt : c / 2 < 2 ^ 15 := by omega
    have hbit : ((c / 2) ^^^ 0xA001).testBit 15 = true := by
      rw [Nat.testBit_xor, Nat.testBit_lt_two_pow hlt]
      decide
    rw [Nat.testBit_to_div_mod] at hbit
    have hub : (c / 2) ^^^ 0xA001 < 2 ^ 16 :=
      Nat.xor_lt_two_pow (by omega) (by norm_num)
    simp only [decide_eq_true_eq] at hbit
    omega
  · rename_i heven
    have : c / 2 < 2 ^ 15 := by omega
    omega

theorem crcRound_inj (c₁ c₂ : Nat) (h₁ : c₁ < 2 ^ 16) (h₂ : c₂ < 2 ^ 16)
    (h : crcRound c₁ = crcRound c₂) : c₁ = c₂ := by
  have hpar : c₁ % 2 = c₂ % 2 := by
    rw [← crcRound_div_two_pow_15 c₁ h₁, ← crcRound_div_two_pow_15 c₂ h₂, h]
  unfold crcRound at h
  rcases Nat.eq_zero_or_pos (c₁ % 2) with hz | hp
  · rw [hz] at hpar
    rw [if_neg (by omega), if_neg (by omega)] at h
    omega
  · have ho₁ : c₁ % 2 = 1 := by omega
    have ho₂ : c₂ % 2 = 1 := by omega
    rw [if_pos ho₁, if_pos ho₂] at h
    have := congrArg (· ^^^ 0xA001) h
    simp only [Nat.xor_cancel_right] at this
    omega

/-- Eight rounds, as in the inner loop of `modbus_crc16`. -/
theorem crcRound8_inj (c₁ c₂ : Nat) (h₁ : c₁ < 2 ^ 16) (h₂ : c₂ < 2 ^ 16)
    (h : (crcRound ∘ crcRound ∘ crcRound ∘ crcRound ∘
          crcRound ∘ crcRound ∘ crcRound ∘ crcRound) c₁ =
         (crcRound ∘ crcRound ∘ crcRound ∘ crcRound ∘
          crcRound ∘ crcRound ∘ crcRound ∘ crcRound) c₂) : c₁ = c₂ := by
  simp only [Function.comp_apply] at h
  have b1 := crcRound_lt _ h₁
  have b2 := crcRound_lt _ b1
  have b3 := crcRound_lt _ b2
  have b4 := crcRound_lt _ b3
  have b5 := crcRound_lt _ b4
  have b6 := crcRound_lt _ b5
  have b7 := crcRound_lt _ b6
  have c1 := crcRound_lt _ h₂
  have c2 := crcRound_lt _ c1
  have c3 := crcRound_lt _ c2
  have c4 := crcRound_lt _ c3
  have c5 := crcRound_lt _ c4
  have c6 := crcRound_lt _ c5
  have c7 := crcRound_lt _ c6
  exact crcRound_inj _ _ h₁ h₂ (crcRound_inj _ _ b1 c1 (crcRound_inj _ _ b2 c2
    (crcRound_inj _ _ b3 c3 (crcRound_inj _ _ b4 c4 (crcRound_inj _ _ b5 c5
    (crcRound_inj _ _ b6 c6 (crcRound_inj _ _ b7 c7 h)))))))

theorem crcByte_inj_state (c₁ c₂ b : Nat) (h₁ : c₁ < 2 ^ 16) (h₂ : c₂ < 2 ^ 16)
    (hb : b < 2 ^ 16) (h : crcByte c₁ b = crcByte c₂ b) : c₁ = c₂ := by
  unfold crcByte at h
  have e1 : c₁ ^^^ b < 2 ^ 16 := Nat.xor_lt_two_pow h₁ hb
  have e2 : c₂ ^^^ b < 2 ^ 16 := Nat.xor_lt_two_pow h₂ hb
  have := crcRound8_inj _ _ e1 e2 h
  have := congrArg (· ^^^ b) this
  simpa only [Nat.xor_cancel_right] using this

theorem crcByte_inj_byte (c b₁ b₂ : Nat) (hc : c < 2 ^ 16) (h₁ : b₁ < 2 ^ 16)
    (h₂ : b₂ < 2 ^ 16) (h : crcByte c b₁ = crcByte c b₂) : b₁ = b₂ := by
  unfold crcByte at h
  have e1 : c ^^^ b₁ < 2 ^ 16 := Nat.xor_lt_two_pow hc h₁
  have e2 : c ^^^ b₂ < 2 ^ 16 := Nat.xor_lt_two_pow hc h₂
  have hx := crcRound8_inj _ _ e1 e2 h
  have := congrArg (c ^^^ ·) hx
  simpa only [Nat.xor_cancel_left] using this

theorem foldl_crcByte_lt (l : List Nat) (c : Nat) (hc : c < 2 ^ 16)
    (hl : bytesOk l) : l.foldl crcByte c < 2 ^ 16 := by
  induction l generalizing c with
  | nil => simpa using hc
  | cons x xs ih =>
      simp only [List.foldl_cons]
      exact ih _ (crcByte_lt _ _ hc (lt_trans (hl x (by simp)) (by norm_num)))
        fun b hb => hl b (by simp [hb])

/-- Distinct CRC states stay distinct through any common byte suffix. -/
theorem foldl_crcByte_inj (l : List Nat) (c₁ c₂ : Nat) (h₁ : c₁ < 2 ^ 16)
    (h₂ : c₂ < 2 ^ 16) (hl : bytesOk l) (hne : c₁ ≠ c₂) :
    l.foldl crcByte c₁ ≠ l.foldl crcByte c₂ := by
  induction l generalizing c₁ c₂ with
  | nil => simpa using hne
  | cons x xs ih =>
      simp only [List.foldl_cons]
      have hx : x < 2 ^ 16 := lt_trans (hl x (by simp)) (by norm_num)
      exact ih _ _ (crcByte_lt _ _ h₁ hx) (crcByte_lt _ _ h₂ hx)
        (fun b hb => hl b (by simp [hb]))
        (fun he => hne (crcByte_inj_state _ _ _ h₁ h₂ hx he))

/-- Changing one byte of the input changes `modbus_crc16`. -/
theorem modbus_crc16_ne_of_byte_ne (p t : List Nat) (x y : Nat)
    (hp : bytesOk p) (ht : bytesOk t) (hx : x < 256) (hy : y < 256)
    (hne : x ≠ y) :
    modbus_crc16 (p ++ x :: t) ≠ modbus_crc16 (p ++ y :: t) := by
  unfold modbus_crc16
  rw [List.foldl_append, List.foldl_append, List.foldl_cons, List.foldl_cons]
  have hs : p.foldl crcByte 0xFFFF < 2 ^ 16 :=
    foldl_crcByte_lt p _ (by norm_num) hp
  refine foldl_crcByte_inj t _ _ ?_ ?_ ht ?_
  · exact crcByte_lt _ _ hs (lt_trans hx (by norm_num))
  · exact crcByte_lt _ _ hs (lt_trans hy (by norm_num))
  · exact fun he => hne (crcByte_inj_byte _ _ _ hs (lt_trans hx (by norm_num))
      (lt_trans hy (by norm_num)) he)

/-! ### Frame surgery helpers -/

theorem byteAt_set_self (l : List Nat) (i v : Nat) (h : i < l.length) :
    byteAt (l.set i v) i = v := by
  unfold byteAt
  rw [List.getD_eq_getElem?_getD, List.getElem?_set_self' , List.getElem?_eq_getElem h]
  rfl

theorem byteAt_set_ne (l : List Nat) (i j v : Nat) (h : i ≠ j) :
    byteAt (l.set i v) j = byteAt l j := by
  unfold byteAt
  rw [List.getD_eq_getElem?_getD, List.getD_eq_getElem?_getD, List.getElem?_set_ne h]

theorem byteAt_take (l : List Nat) (n j : Nat) (h : j < n) :
    byteAt (l.take n) j = byteAt l j := by
  unfold byteAt
  rw [List.getD_eq_getElem?_getD, List.getD_eq_getElem?_getD, List.getElem?_take_of_lt h]

theorem take_set_of_le (l : List Nat) (i n v : Nat) (h : n ≤ i) :
    (l.set i v).take n = l.take n := by
  induction l generalizing i n with
  | nil => simp
  | cons a l ih =>
      cases i with
      | zero =>
          have : n = 0 := by omega
          simp [this]
      | succ i =>
          cases n with
          | zero => simp
          | succ n => simp [List.set, ih i n (by omega)]

theorem set_take_comm (l : List Nat) (i n v : Nat) (h : i < n) :
    (l.set i v).take n = (l.take n).set i v := by
  induction l generalizing i n with
  | nil => simp
  | cons a l ih =>
      cases i with
      | zero =>
          cases n with
          | zero => omega
          | succ n => simp
      | succ i =>
          cases n with
          | zero => omega
          | succ n => simp [List.set, ih i n (by omega)]

theorem bytesOk_take (l : List Nat) (n : Nat) (h : bytesOk l) :
    bytesOk (l.take n) := fun b hb => h b (List.mem_of_mem_take hb)

theorem bytesOk_drop (l : List Nat) (n : Nat) (h : bytesOk l) :
    bytesOk (l.drop n) := fun b hb => h b (List.mem_of_mem_drop hb)

theorem byteAt_lt_of_bytesOk (l : List Nat) (i : Nat) (h : bytesOk l)
    (hi : i < l.length) : byteAt l i < 256 := by
  unfold byteAt
  rw [List.getD_eq_getElem?_getD, List.getElem?_eq_getElem hi]
  exact h _ (List.getElem_mem hi)

theorem byteAt_eq_get (l : List Nat) (i : Nat) (h : i < l.length) :
    byteAt l i = l.get ⟨i, h⟩ := by
  unfold byteAt
  rw [List.getD_eq_getElem?_getD, List.getElem?_eq_getElem h]
  rfl

theorem flip_byte_ne (x k : Nat) : x ^^^ (1 <<< k) ≠ x := by
  intro h
  have h2 := congrArg (x ^^^ ·) h
  simp only [Nat.xor_cancel_left, Nat.xor_self] at h2
  have h3 : (0 : Nat) < 1 <<< k := by
    rw [Nat.shiftLeft_eq, one_mul]
    positivity
  omega

theorem flip_byte_lt (x k : Nat) (hx : x < 256) (hk : k < 8) :
    x ^^^ (1 <<< k) < 256 := by
  have h1 : (1 : Nat) <<< k < 256 := by
    rw [Nat.shiftLeft_eq, one_mul]
    calc (2:Nat) ^ k < 2 ^ 8 := Nat.pow_lt_pow_right (by norm_num) hk
    _ = 256 := by norm_num
  exact Nat.xor_lt_two_pow (n := 8) hx h1

/-- Flipping any single bit of a CRC-valid frame breaks validation. -/
theorem validate_flipBit_false (frame : List Nat) (i k : Nat)
    (hok : bytesOk frame) (hv : modbus_validate_crc frame = true)
    (hi : i < frame.length) (hk : k < 8) :
    modbus_validate_crc (flipBitAt frame i k) = false := by
  unfold modbus_validate_crc at hv
  split at hv
  · exact absurd hv (by simp)
  rename_i hlen
  have hlen2 : 2 ≤ frame.length := by omega
  rw [beq_iff_eq] at hv
  set len := frame.length with hlendef
  have hflen : (flipBitAt frame i k).length = len := by
    unfold flipBitAt
    simp
  unfold modbus_validate_crc
  rw [hflen, if_neg hlen]
  rw [beq_eq_false_iff_ne]
  set v := byteAt frame i ^^^ (1 <<< k) with hvdef
  have hbv : byteAt frame i < 256 := byteAt_lt_of_bytesOk frame i hok hi
  rcases Nat.lt_or_ge i (len - 2) with hcase | hcase
  · -- payload flip: the recomputed CRC changes, the trailer does not
    intro heq
    have h2 : byteAt (flipBitAt frame i k) (len - 2) = byteAt frame (len - 2) :=
      byteAt_set_ne _ _ _ _ (by omega)
    have h1 : byteAt (flipBitAt frame i k) (len - 1) = byteAt frame (len - 1) :=
      byteAt_set_ne _ _ _ _ (by omega)
    rw [h1, h2, hv] at heq
    -- so the two CRCs would be equal; derive a contradiction
    have htake : (flipBitAt frame i k).take (len - 2) =
        (frame.take (len - 2)).set i v :=
      set_take_comm frame i (len - 2) v hcase
    set t := frame.take (len - 2) with htdef
    have hit : i < t.length := by
      rw [htdef, List.length_take]
      omega
    have htok : bytesOk t := bytesOk_take _ _ hok
    have hbt : byteAt frame i = t.get ⟨i, hit⟩ := by
      rw [← byteAt_take frame (len - 2) i hcase, byteAt_eq_get]
    have hset : t.set i v = t.take i ++ v :: t.drop (i + 1) :=
      List.set_eq_take_cons_drop v hit
    have hsplit : t = t.take i ++ t.get ⟨i, hit⟩ :: t.drop (i + 1) := by
      conv_lhs => rw [← List.take_append_drop i t]
      rw [List.drop_eq_get_cons hit]
    have hne : modbus_crc16 (t.take i ++ v :: t.drop (i + 1)) ≠
        modbus_crc16 (t.take i ++ t.get ⟨i, hit⟩ :: t.drop (i + 1)) := by
      apply modbus_crc16_ne_of_byte_ne
      · exact bytesOk_take _ _ htok
      · exact bytesOk_drop _ _ htok
      · exact flip_byte_lt _ _ hbv hk
      · rw [← hbt]
        exact hbv
      · rw [← hbt]
        exact flip_byte_ne _ _
    apply hne
    rw [← hset, ← htake, ← heq]
    conv_lhs => rw [hsplit]
  · -- trailer flip
    have hor : i = len - 2 ∨ i = len - 1 := by omega
    have hlo : byteAt frame (len - 2) < 256 :=
      byteAt_lt_of_bytesOk frame _ hok (by omega)
    have htake : (flipBitAt frame i k).take (len - 2) = frame.take (len - 2) :=
      take_set_of_le frame i (len - 2) v (by omega)
    rw [htake]
    rcases hor with hor | hor
    · have h2 : byteAt (flipBitAt frame i k) (len - 2) = v := by
        rw [← hor]
        exact byteAt_set_self frame i v hi
      have h1 : byteAt (flipBitAt frame i k) (len - 1) = byteAt frame (len - 1) :=
        byteAt_set_ne _ _ _ _ (by omega)
      have hv256 : v < 256 := by
        rw [hvdef, hor]
        exact flip_byte_lt _ _ hlo hk
      rw [h1, h2, ← hv]
      rw [Nat.lor_comm, Nat.lor_comm (byteAt frame (len - 2))]
      rw [shiftLeft_lor_eq_add 8 _ _ hv256]
      rw [shiftLeft_lor_eq_add 8 _ _ hlo]
      have : v ≠ byteAt frame (len - 2) := by
        rw [hvdef, hor]
        exact flip_byte_ne _ _
      omega
    · have h2 : byteAt (flipBitAt frame i k) (len - 2) = byteAt frame (len - 2) :=
        byteAt_set_ne _ _ _ _ (by omega)
      have h1 : byteAt (flipBitAt frame i k) (len - 1) = v := by
        rw [← hor]
        exact byteAt_set_self frame i v hi
      rw [h1, h2, ← hv]
      rw [Nat.lor_comm, Nat.lor_comm (byteAt frame (len - 2))]
      rw [shiftLeft_lor_eq_add 8 _ _ hlo]
      rw [shiftLeft_lor_eq_add 8 _ _ hlo]
      have : v ≠ byteAt frame (len - 1) := by
        rw [hvdef, hor]
        exact flip_byte_ne _ _
      omega

/-- C6: `modbus_crc16` is a deterministic pure function with
    `modbus_crc16 [] = 0xFFFF`; for frames of length ≥ 2, validation holds
    iff the little-endian trailer equals the CRC of the preceding bytes;
    flipping any single bit of a valid frame (payload or trailer) breaks
    validation; frames shorter than 2 bytes never validate. -/
theorem checksum_codec_spec :
    modbus_crc16 [] = 0xFFFF ∧
    (∀ data₁ data₂ : List Nat, data₁ = data₂ →
      modbus_crc16 data₁ = modbus_crc16 data₂) ∧
    (∀ frame : List Nat, bytesOk frame → 2 ≤ frame.length →
      (modbus_validate_crc frame = true ↔
        byteAt frame (frame.length - 2) + 256 * byteAt frame (frame.length - 1) =
          modbus_crc16 (frame.take (frame.length - 2)))) ∧
    (∀ frame i k, bytesOk frame → modbus_validate_crc frame = true →
      i < frame.length → k < 8 →
      modbus_validate_crc (flipBitAt frame i k) = false) ∧
    (∀ frame : List Nat, frame.length < 2 → modbus_validate_crc frame = false) := by
  refine ⟨rfl, fun _ _ h => h ▸ rfl, ?_, validate_flipBit_false, ?_⟩
  · intro frame hok hlen
    unfold modbus_validate_crc
    rw [if_neg (by omega), beq_iff_eq]
    have hlo : byteAt frame (frame.length - 2) < 256 :=
      byteAt_lt_of_bytesOk _ _ hok (by omega)
    rw [Nat.lor_comm, shiftLeft_lor_eq_add 8 _ _ hlo]
    omega
  · intro frame h
    unfold modbus_validate_crc
    rw [if_pos h]

/-- C6 witness: the conjuncts of `checksum_codec_spec` instantiated on the
    concrete frame `[11, 3, 2, 0x81, 0x33]`. -/
theorem checksum_codec_spec_witness :
    modbus_validate_crc [11, 3, 2, 0x81, 0x33] = true ∧
    modbus_validate_crc (flipBitAt [11, 3, 2, 0x81, 0x33] 2 0) = false ∧
    modbus_validate_crc [11] = false := by
  refine ⟨?_, ?_, ?_⟩
  · exact (checksum_codec_spec.2.2.1 [11, 3, 2, 0x81, 0x33]
      (by decide) (by decide)).mpr (by decide)
  · exact checksum_codec_spec.2.2.2.1 [11, 3, 2, 0x81, 0x33] 2 0
      (by decide) (by decide) (by decide) (by decide)
  · exact checksum_codec_spec.2.2.2.2 [11] (by decide)

/-! ### Bounds for the rounding machinery -/

theorem pow2z_eq_zpow (e : Int) : pow2z e = (2 : ℚ) ^ e := by
  unfold pow2z
  split
  · rename_i h
    rw [← zpow_natCast, Int.toNat_of_nonneg h]
  · rename_i h
    rw [one_div, ← zpow_natCast, Int.toNat_of_nonneg (by omega : (0:Int) ≤ -e),
      ← zpow_neg, neg_neg]

theorem pow2z_pos (e : Int) : 0 < pow2z e := by
  rw [pow2z_eq_zpow]
  positivity

theorem log2fuel_spec : ∀ (fuel n : Nat), 1 ≤ n → n ≤ fuel →
    2 ^ log2fuel fuel n ≤ n ∧ n < 2 ^ (log2fuel fuel n + 1) := by
  intro fuel
  induction fuel with
  | zero => intro n h1 h2; omega
  | succ fuel ih =>
      intro n h1 h2
      unfold log2fuel
      split
      · rename_i hle
        have : n = 1 := by omega
        subst this
        norm_num
      · rename_i hgt
        have h2' : n / 2 ≤ fuel := by omega
        have h1' : 1 ≤ n / 2 := by omega
        obtain ⟨ha, hb⟩ := ih (n / 2) h1' h2'
        have e1 : (2:Nat) ^ (log2fuel fuel (n / 2) + 1) = 2 ^ log2fuel fuel (n / 2) * 2 :=
          pow_succ 2 _
        have e2 : (2:Nat) ^ (log2fuel fuel (n / 2) + 1 + 1) =
            2 ^ (log2fuel fuel (n / 2) + 1) * 2 := pow_succ 2 _
        omega

theorem natLog2_spec (n : Nat) (h : 1 ≤ n) :
    2 ^ natLog2 n ≤ n ∧ n < 2 ^ (natLog2 n + 1) :=
  log2fuel_spec n n h le_rfl

theorem roundHE_mem (x : ℚ) :
    roundHE x = x.floor.toNat ∨ roundHE x = x.floor.toNat + 1 := by
  unfold roundHE
  split
  · left; rfl
  split
  · right; rfl
  split
  · left; rfl
  · right; rfl

theorem roundHE_le (x : ℚ) (B : Nat) (hx0 : 0 ≤ x) (hx : x < B) :
    roundHE x ≤ B := by
  have hfl : x.floor < (B : Int) := by
    by_contra hcon
    push_neg at hcon
    have : ((B : Int) : ℚ) ≤ x := Rat.le_floor.mp hcon
    push_cast at this
    linarith
  have hfl0 : (0 : Int) ≤ x.floor := Rat.le_floor.mpr (by push_cast; exact hx0)
  rcases roundHE_mem x with h | h <;> omega

theorem roundHE_ge (x : ℚ) (A : Nat) (hx : (A : ℚ) ≤ x) : A ≤ roundHE x := by
  have hfl : (A : Int) ≤ x.floor := Rat.le_floor.mpr (by push_cast; exact hx)
  rcases roundHE_mem x with h | h <;> omega

theorem ilog2q_spec (a : ℚ) (ha : 0 < a) :
    pow2z (ilog2q a) ≤ a ∧ a < pow2z (ilog2q a + 1) := by
  have hnum : 1 ≤ a.num.toNat := by
    have := Rat.num_pos.mpr ha
    omega
  have hden : 1 ≤ a.den := a.den_pos
  obtain ⟨hn1, hn2⟩ := natLog2_spec a.num.toNat hnum
  obtain ⟨hd1, hd2⟩ := natLog2_spec a.den hden
  set ln := natLog2 a.num.toNat with hln
  set ld := natLog2 a.den with hld
  have hanum : (a.num.toNat : ℚ) = (a.num : ℚ) := by
    have h0 : (a.num.toNat : Int) = a.num :=
      Int.toNat_of_nonneg (le_of_lt (Rat.num_pos.mpr ha))
    exact_mod_cast congrArg (fun z : Int => (z : ℚ)) h0
  have haval : a = (a.num.toNat : ℚ) / (a.den : ℚ) := by
    rw [hanum, Rat.num_div_den]
  have hdenpos : (0:ℚ) < (a.den : ℚ) := by positivity
  -- a is trapped between 2^(ln-ld-1) and 2^(ln-ld+1)
  have hup : a < pow2z ((ln : Int) - ld + 1) := by
    rw [pow2z_eq_zpow, haval]
    have h1 : ((a.num.toNat : ℚ)) < (2:ℚ) ^ (ln + 1) := by
      exact_mod_cast hn2
    have h2 : (2:ℚ) ^ ld ≤ (a.den : ℚ) := by
      exact_mod_cast hd1
    have hstep : (a.num.toNat : ℚ) / (a.den : ℚ) < (2:ℚ) ^ (ln + 1) / (2:ℚ) ^ ld :=
      div_lt_div₀ h1 h2 (by positivity) (by positivity)
    calc (a.num.toNat : ℚ) / (a.den : ℚ)
        < (2:ℚ) ^ (ln + 1) / (2:ℚ) ^ ld := hstep
      _ = (2:ℚ) ^ ((ln : Int) - ld + 1) := by
          rw [← zpow_natCast (2:ℚ) (ln + 1), ← zpow_natCast (2:ℚ) ld,
            ← zpow_sub₀ (by norm_num : (2:ℚ) ≠ 0)]
          congr 1
          push_cast
          ring
  have hdown : pow2z ((ln : Int) - ld - 1) < a := by
    rw [pow2z_eq_zpow, haval]
    have h1 : (2:ℚ) ^ ln ≤ (a.num.toNat : ℚ) := by
      exact_mod_cast hn1
    have h2 : (a.den : ℚ) < (2:ℚ) ^ (ld + 1) := by
      exact_mod_cast hd2
    have hstep : (2:ℚ) ^ ln / (2:ℚ) ^ (ld + 1) < (a.num.toNat : ℚ) / (a.den : ℚ) := by
      rw [div_lt_div_iff₀ (by positivity) hdenpos]
      have hnum0 : (0:ℚ) < (2:ℚ) ^ ln := by positivity
      nlinarith
    calc (2:ℚ) ^ ((ln : Int) - ld - 1)
        = (2:ℚ) ^ ln / (2:ℚ) ^ (ld + 1) := by
          rw [← zpow_natCast (2:ℚ) ln, ← zpow_natCast (2:ℚ) (ld + 1),
            ← zpow_sub₀ (by norm_num : (2:ℚ) ≠ 0)]
          congr 1
          push_cast
          ring
      _ < (a.num.toNat : ℚ) / (a.den : ℚ) := hstep
  unfold ilog2q
  rw [← hln, ← hld]
  split
  · rename_i hlt
    constructor
    · -- lower: 2^(e0-1) ≤ a, strict from hdown
      exact le_of_lt hdown
    · -- upper: a < 2^e0
      have : (ln : Int) - ld - 1 + 1 = (ln : Int) - ld := by ring
      rw [this]
      exact hlt
  · rename_i hge
    push_neg at hge
    exact ⟨hge, hup⟩

theorem pow2z_add (a b : Int) : pow2z (a + b) = pow2z a * pow2z b := by
  rw [pow2z_eq_zpow, pow2z_eq_zpow, pow2z_eq_zpow,
    zpow_add₀ (by norm_num : (2:ℚ) ≠ 0)]

theorem pow2z_natCast (n : Nat) : pow2z (n : Int) = (2 : ℚ) ^ n := by
  rw [pow2z_eq_zpow, zpow_natCast]

theorem roundPosF32_lt (a : ℚ) (ha : 0 < a) : roundPosF32 a < 2 ^ 31 := by
  unfold roundPosF32
  split
  · rename_i hsub
    split
    · rename_i h
      exact lt_trans h (by norm_num)
    · norm_num
  · rename_i hge
    obtain ⟨hlo, hhi⟩ := ilog2q_spec a ha
    set e := ilog2q a with he
    have hppos := pow2z_pos (e - 23)
    have hx0 : (0:ℚ) ≤ a / pow2z (e - 23) := le_of_lt (div_pos ha hppos)
    have hxlt : a / pow2z (e - 23) < ((2 ^ 24 : Nat) : ℚ) := by
      rw [div_lt_iff₀ hppos]
      calc a < pow2z (e + 1) := hhi
        _ = ((2 ^ 24 : Nat) : ℚ) * pow2z (e - 23) := by
            rw [show e + 1 = (24 : Int) + (e - 23) by ring, pow2z_add]
            congr 1
    have hnle : roundHE (a / pow2z (e - 23)) ≤ 2 ^ 24 :=
      roundHE_le _ _ hx0 hxlt
    split
    · rename_i hcarry
      split
      · norm_num [infF32]
      · rename_i hle
        have : (e + 1 + 127).toNat ≤ 255 := by omega
        calc (e + 1 + 127).toNat * 2 ^ 23 ≤ 255 * 2 ^ 23 :=
              Nat.mul_le_mul_right _ this
          _ < 2 ^ 31 := by norm_num
    · rename_i hnocarry
      split
      · norm_num [infF32]
      · rename_i hle
        have h1 : (e + 127).toNat ≤ 254 := by omega
        have h2 : roundHE (a / pow2z (e - 23)) - 2 ^ 23 ≤ 2 ^ 23 - 1 := by omega
        calc (e + 127).toNat * 2 ^ 23 + (roundHE (a / pow2z (e - 23)) - 2 ^ 23)
            ≤ 254 * 2 ^ 23 + (2 ^ 23 - 1) :=
              Nat.add_le_add (Nat.mul_le_mul_right _ h1) h2
          _ < 2 ^ 31 := by norm_num

theorem roundF32_lt (q : ℚ) : roundF32 q < 2 ^ 32 := by
  unfold roundF32
  split
  · norm_num
  split
  · rename_i h0 hneg
    have := roundPosF32_lt (-q) (by linarith)
    omega
  · rename_i h0 hpos
    have hq : 0 < q := lt_of_le_of_ne (not_lt.mp hpos) (Ne.symm h0)
    have := roundPosF32_lt q hq
    omega

theorem qNaNF32_lt : qNaNF32 < 2 ^ 32 := by norm_num [qNaNF32]

theorem f32add_lt (a b : Nat) (ha : a < 2 ^ 32) (hb : b < 2 ^ 32) :
    f32add a b < 2 ^ 32 := by
  unfold f32add
  split_ifs with h1 h2 h3 h4 h5 h6 h7
  · exact qNaNF32_lt
  · exact ha
  · exact qNaNF32_lt
  · exact ha
  · exact hb
  · norm_num
  · norm_num
  · exact roundF32_lt _

theorem f32divThree_lt (a : Nat) (ha : a < 2 ^ 32) : f32divThree a < 2 ^ 32 := by
  unfold f32divThree
  split_ifs with h1 h2 h3
  · exact qNaNF32_lt
  · exact ha
  · exact ha
  · exact roundF32_lt _

theorem f32mulNegOne_lt (a : Nat) (ha : a < 2 ^ 32) : f32mulNegOne a < 2 ^ 32 := by
  unfold f32mulNegOne
  split_ifs with h1 h2
  · exact qNaNF32_lt
  · omega
  · omega

/-- The sign-bit flip leaves exponent and fraction fields untouched. -/
theorem expField_flip (a : Nat) (ha : a < 2 ^ 32) :
    expField (if a < 2 ^ 31 then a + 2 ^ 31 else a - 2 ^ 31) = expField a := by
  unfold expField
  split <;> omega

theorem fracField_flip (a : Nat) (ha : a < 2 ^ 32) :
    fracField (if a < 2 ^ 31 then a + 2 ^ 31 else a - 2 ^ 31) = fracField a := by
  unfold fracField
  split <;> omega

theorem isNaNF32_flipArith (a : Nat) (ha : a < 2 ^ 32) (hn : isNaNF32 a = false) :
    isNaNF32 (if a < 2 ^ 31 then a + 2 ^ 31 else a - 2 ^ 31) = false := by
  unfold isNaNF32 at *
  rw [expField_flip a ha, fracField_flip a ha]
  exact hn

theorem isNaNF32_f32mulNegOne (a : Nat) (ha : a < 2 ^ 32)
    (hn : isNaNF32 a = false) : isNaNF32 (f32mulNegOne a) = false := by
  unfold f32mulNegOne
  rw [if_neg (by simp [hn])]
  exact isNaNF32_flipArith a ha hn

/-- Multiplying by `-1.0f` twice is the identity on non-NaN patterns. -/
theorem f32mulNegOne_involutive (a : Nat) (ha : a < 2 ^ 32)
    (hn : isNaNF32 a = false) : f32mulNegOne (f32mulNegOne a) = a := by
  unfold f32mulNegOne
  rw [if_neg (show ¬ isNaNF32 a = true by simp [hn])]
  rw [if_neg (show ¬ isNaNF32 (if a < 2 ^ 31 then a + 2 ^ 31 else a - 2 ^ 31) = true by
    rw [isNaNF32_flipArith a ha hn]
    exact Bool.false_ne_true)]
  split_ifs <;> omega

/-! ## Field codec and reading codec (`dtsu666.c`) -/

theorem and255_eq_mod (x : Nat) : x &&& 255 = x % 256 := by
  have h := Nat.and_pow_two_sub_one_eq_mod x 8
  norm_num at h
  exact h

theorem length_encode_float32 (value : Nat) (data : List Nat) (offset : Nat) :
    (dtsu666_encode_float32 value data offset).length = data.length := by
  unfold dtsu666_encode_float32
  simp

/-- Reassembling four bytes big-endian. -/
theorem be32_recompose (b0 b1 b2 b3 : Nat) (h1 : b1 < 256) (h2 : b2 < 256)
    (h3 : b3 < 256) :
    (b0 <<< 24) ||| (b1 <<< 16) ||| (b2 <<< 8) ||| b3 =
      b0 * 2 ^ 24 + b1 * 2 ^ 16 + b2 * 2 ^ 8 + b3 := by
  rw [Nat.lor_assoc, Nat.lor_assoc]
  have e1 : (b2 <<< 8) ||| b3 = b2 * 2 ^ 8 + b3 :=
    shiftLeft_lor_eq_add 8 b3 b2 (by omega)
  rw [e1]
  have e2 : (b1 <<< 16) ||| (b2 * 2 ^ 8 + b3) = b1 * 2 ^ 16 + (b2 * 2 ^ 8 + b3) :=
    shiftLeft_lor_eq_add 16 _ b1 (by norm_num; omega)
  rw [e2]
  have e3 : (b0 <<< 24) ||| (b1 * 2 ^ 16 + (b2 * 2 ^ 8 + b3)) =
      b0 * 2 ^ 24 + (b1 * 2 ^ 16 + (b2 * 2 ^ 8 + b3)) :=
    shiftLeft_lor_eq_add 24 _ b0 (by norm_num; omega)
  rw [e3]
  ring

/-- Reading back the four bytes just stored yields the stored value. -/
theorem parse_encode_float32 (value : Nat) (data : List Nat) (offset : Nat)
    (hlen : offset + 4 ≤ data.length) (hv : value < 2 ^ 32) :
    dtsu666_parse_float32 (dtsu666_encode_float32 value data offset) offset = value := by
  unfold dtsu666_parse_float32 dtsu666_encode_float32
  have l0 : offset < data.length := by omega
  have l1 : offset + 1 < data.length := by omega
  have l2 : offset + 2 < data.length := by omega
  have l3 : offset + 3 < data.length := by omega
  rw [byteAt_set_ne _ _ _ _ (by omega), byteAt_set_ne _ _ _ _ (by omega),
    byteAt_set_ne _ _ _ _ (by omega), byteAt_set_self _ _ _ (by simpa using l0)]
  rw [byteAt_set_ne _ _ _ _ (by omega), byteAt_set_ne _ _ _ _ (by omega),
    byteAt_set_self _ _ _ (by simpa using l1)]
  rw [byteAt_set_ne _ _ _ _ (by omega),
    byteAt_set_self _ _ _ (by simpa using l2)]
  rw [byteAt_set_self _ _ _ (by simpa using l3)]
  rw [and255_eq_mod, and255_eq_mod, and255_eq_mod, and255_eq_mod]
  rw [Nat.shiftRight_eq_div_pow, Nat.shiftRight_eq_div_pow, Nat.shiftRight_eq_div_pow]
  rw [be32_recompose _ _ _ _ (by omega) (by omega) (by omega)]
  omega

/-- A store at `j` outside `[o, o+4)` does not affect a read at `o`. -/
theorem parse_float32_set_outside (data : List Nat) (j v o : Nat)
    (h : j < o ∨ o + 4 ≤ j) :
    dtsu666_parse_float32 (data.set j v) o = dtsu666_parse_float32 data o := by
  unfold dtsu666_parse_float32
  rw [byteAt_set_ne _ _ _ _ (by omega), byteAt_set_ne _ _ _ _ (by omega),
    byteAt_set_ne _ _ _ _ (by omega), byteAt_set_ne _ _ _ _ (by omega)]

/-- A 4-byte store at `o'` disjoint from `[o, o+4)` does not affect a read
    at `o`. -/
theorem parse_encode_float32_disjoint (value : Nat) (data : List Nat) (o o' : Nat)
    (h : o + 4 ≤ o' ∨ o' + 4 ≤ o) :
    dtsu666_parse_float32 (dtsu666_encode_float32 value data o') o =
      dtsu666_parse_float32 data o := by
  unfold dtsu666_encode_float32
  rw [parse_float32_set_outside _ _ _ _ (by omega),
    parse_float32_set_outside _ _ _ _ (by omega),
    parse_float32_set_outside _ _ _ _ (by omega),
    parse_float32_set_outside _ _ _ _ (by omega)]

theorem byteAt_encode_float32_outside (value : Nat) (data : List Nat) (o j : Nat)
    (h : j < o ∨ o + 4 ≤ j) :
    byteAt (dtsu666_encode_float32 value data o) j = byteAt data j := by
  unfold dtsu666_encode_float32
  rw [byteAt_set_ne _ _ _ _ (by omega), byteAt_set_ne _ _ _ _ (by omega),
    byteAt_set_ne _ _ _ _ (by omega), byteAt_set_ne _ _ _ _ (by omega)]

theorem take_encode_float32_of_le (value : Nat) (data : List Nat) (o n : Nat)
    (h : o + 4 ≤ n) :
    (dtsu666_encode_float32 value data o).take n =
      dtsu666_encode_float32 value (data.take n) o := by
  unfold dtsu666_encode_float32
  rw [set_take_comm _ _ _ _ (by omega), set_take_comm _ _ _ _ (by omega),
    set_take_comm _ _ _ _ (by omega), set_take_comm _ _ _ _ (by omega)]

theorem byteAt_eq_zero_of_le (l : List Nat) (i : Nat) (h : l.length ≤ i) :
    byteAt l i = 0 := by
  unfold byteAt
  rw [List.getD_eq_getElem?_getD, List.getElem?_eq_none h]
  rfl

theorem byteAt_lt256 (l : List Nat) (i : Nat) (hok : bytesOk l) :
    byteAt l i < 256 := by
  by_cases hi : i < l.length
  · exact byteAt_lt_of_bytesOk l i hok hi
  · rw [byteAt_eq_zero_of_le l i (by omega)]
    norm_num

theorem parse_float32_lt (data : List Nat) (o : Nat) (hok : bytesOk data) :
    dtsu666_parse_float32 data o < 2 ^ 32 := by
  unfold dtsu666_parse_float32
  rw [be32_recompose _ _ _ _ (byteAt_lt256 _ _ hok) (byteAt_lt256 _ _ hok)
    (byteAt_lt256 _ _ hok)]
  have h0 := byteAt_lt256 data o hok
  have h1 := byteAt_lt256 data (o + 1) hok
  have h2 := byteAt_lt256 data (o + 2) hok
  have h3 := byteAt_lt256 data (o + 3) hok
  omega

theorem bytesOk_set (l : List Nat) (i v : Nat) (hok : bytesOk l) (hv : v < 256) :
    bytesOk (l.set i v) := by
  intro b hb
  rcases List.mem_or_eq_of_mem_set hb with h | h
  · exact hok b h
  · omega

theorem bytesOk_encode_float32 (value : Nat) (data : List Nat) (o : Nat)
    (hok : bytesOk data) : bytesOk (dtsu666_encode_float32 value data o) := by
  unfold dtsu666_encode_float32
  refine bytesOk_set _ _ _ (bytesOk_set _ _ _ (bytesOk_set _ _ _
    (bytesOk_set _ _ _ hok ?_) ?_) ?_) ?_ <;>
    rw [and255_eq_mod] <;> exact Nat.mod_lt _ (by norm_num)

theorem bytesOk_rmwAddF32 (l : List Nat) (o v : Nat) (hok : bytesOk l) :
    bytesOk (rmwAddF32 l o v) :=
  bytesOk_encode_float32 _ _ _ hok

theorem length_rmwAddF32 (l : List Nat) (o v : Nat) :
    (rmwAddF32 l o v).length = l.length :=
  length_encode_float32 _ _ _

theorem length_applyFields (raw : List Nat) (correction : Nat) :
    (applyFields raw correction).length = raw.length := by
  unfold applyFields
  rw [length_rmwAddF32, length_rmwAddF32, length_rmwAddF32, length_rmwAddF32,
    length_rmwAddF32, length_rmwAddF32, length_rmwAddF32, length_rmwAddF32]

theorem bytesOk_applyFields (raw : List Nat) (correction : Nat)
    (hok : bytesOk raw) : bytesOk (applyFields raw correction) := by
  unfold applyFields
  exact bytesOk_rmwAddF32 _ _ _ (bytesOk_rmwAddF32 _ _ _ (bytesOk_rmwAddF32 _ _ _
    (bytesOk_rmwAddF32 _ _ _ (bytesOk_rmwAddF32 _ _ _ (bytesOk_rmwAddF32 _ _ _
    (bytesOk_rmwAddF32 _ _ _ (bytesOk_rmwAddF32 _ _ _ hok)))))))

/-- Reading one of the rewritten fields gives the binary32 sum that the
    engine stored there; every write before it hits a disjoint field and
    every write after it reads through disjointly. -/
theorem parse_rmwAddF32_self (l : List Nat) (o v : Nat)
    (hlen : o + 4 ≤ l.length) (hok : bytesOk l) (hv : v < 2 ^ 32) :
    dtsu666_parse_float32 (rmwAddF32 l o v) o =
      f32add (dtsu666_parse_float32 l o) v := by
  unfold rmwAddF32
  exact parse_encode_float32 _ _ _ hlen
    (f32add_lt _ _ (parse_float32_lt _ _ hok) hv)

theorem parse_rmwAddF32_disjoint (l : List Nat) (o o' v : Nat)
    (h : o + 4 ≤ o' ∨ o' + 4 ≤ o) :
    dtsu666_parse_float32 (rmwAddF32 l o' v) o = dtsu666_parse_float32 l o := by
  unfold rmwAddF32
  exact parse_encode_float32_disjoint _ _ _ _ h

/-- The eight field rewrites of `applyFields`, read back at each field. -/
theorem parse_applyFields (raw : List Nat) (correction : Nat)
    (hlen : 165 ≤ raw.length) (hok : bytesOk raw) (hc : correction < 2 ^ 32) :
    dtsu666_parse_float32 (applyFields raw correction) (3 + 48) =
      f32add (dtsu666_parse_float32 raw (3 + 48)) correction ∧
    dtsu666_parse_float32 (applyFields raw correction) (3 + 112) =
      f32add (dtsu666_parse_float32 raw (3 + 112)) correction ∧
    dtsu666_parse_float32 (applyFields raw correction) (3 + 52) =
      f32add (dtsu666_parse_float32 raw (3 + 52)) (f32divThree correction) ∧
    dtsu666_parse_float32 (applyFields raw correction) (3 + 56) =
      f32add (dtsu666_parse_float32 raw (3 + 56)) (f32divThree correction) ∧
    dtsu666_parse_float32 (applyFields raw correction) (3 + 60) =
      f32add (dtsu666_parse_float32 raw (3 + 60)) (f32divThree correction) ∧
    dtsu666_parse_float32 (applyFields raw correction) (3 + 116) =
      f32add (dtsu666_parse_float32 raw (3 + 116)) (f32divThree correction) ∧
    dtsu666_parse_float32 (applyFields raw correction) (3 + 120) =
      f32add (dtsu666_parse_float32 raw (3 + 120)) (f32divThree correction) ∧
    dtsu666_parse_float32 (applyFields raw correction) (3 + 124) =
      f32add (dtsu666_parse_float32 raw (3 + 124)) (f32divThree correction) := by
  unfold applyFields
  set per := f32divThree correction with eper
  set r1 := rmwAddF32 raw (3 + 52) per with e1
  set r2 := rmwAddF32 r1 (3 + 56) per with e2
  set r3 := rmwAddF32 r2 (3 + 60) per with e3
  set r4 := rmwAddF32 r3 (3 + 48) correction with e4
  set r5 := rmwAddF32 r4 (3 + 116) per with e5
  set r6 := rmwAddF32 r5 (3 + 120) per with e6
  set r7 := rmwAddF32 r6 (3 + 124) per with e7
  set r8 := rmwAddF32 r7 (3 + 112) correction with e8
  have hper : per < 2 ^ 32 := by rw [eper]; exact f32divThree_lt _ hc
  have hl1 : r1.length = raw.length := by rw [e1, length_rmwAddF32]
  have ho1 : bytesOk r1 := by rw [e1]; exact bytesOk_rmwAddF32 _ _ _ hok
  have hl2 : r2.length = raw.length := by rw [e2, length_rmwAddF32, hl1]
  have ho2 : bytesOk r2 := by rw [e2]; exact bytesOk_rmwAddF32 _ _ _ ho1
  have hl3 : r3.length = raw.length := by rw [e3, length_rmwAddF32, hl2]
  have ho3 : bytesOk r3 := by rw [e3]; exact bytesOk_rmwAddF32 _ _ _ ho2
  have hl4 : r4.length = raw.length := by rw [e4, length_rmwAddF32, hl3]
  have ho4 : bytesOk r4 := by rw [e4]; exact bytesOk_rmwAddF32 _ _ _ ho3
  have hl5 : r5.length = raw.length := by rw [e5, length_rmwAddF32, hl4]
  have ho5 : bytesOk r5 := by rw [e5]; exact bytesOk_rmwAddF32 _ _ _ ho4
  have hl6 : r6.length = raw.length := by rw [e6, length_rmwAddF32, hl5]
  have ho6 : bytesOk r6 := by rw [e6]; exact bytesOk_rmwAddF32 _ _ _ ho5
  have hl7 : r7.length = raw.length := by rw [e7, length_rmwAddF32, hl6]
  have ho7 : bytesOk r7 := by rw [e7]; exact bytesOk_rmwAddF32 _ _ _ ho6
  have hl8 : r8.length = raw.length := by rw [e8, length_rmwAddF32, hl7]
  have ho8 : bytesOk r8 := by rw [e8]; exact bytesOk_rmwAddF32 _ _ _ ho7
  refine ⟨?_, ?_, ?_, ?_, ?_, ?_, ?_, ?_⟩
  · rw [e8,
      parse_rmwAddF32_disjoint r7 (3 + 48) (3 + 112) correction (by omega),
      e7,
      parse_rmwAddF32_disjoint r6 (3 + 48) (3 + 124) per (by omega),
      e6,
      parse_rmwAddF32_disjoint r5 (3 + 48) (3 + 120) per (by omega),
      e5,
      parse_rmwAddF32_disjoint r4 (3 + 48) (3 + 116) per (by omega),
      e4,
      parse_rmwAddF32_self r3 (3 + 48) correction (by rw [hl3]; omega) ho3 hc,
      e3,
      parse_rmwAddF32_disjoint r2 (3 + 48) (3 + 60) per (by omega),
      e2,
      parse_rmwAddF32_disjoint r1 (3 + 48) (3 + 56) per (by omega),
      e1,
      parse_rmwAddF32_disjoint raw (3 + 48) (3 + 52) per (by omega)]
  · rw [e8,
      parse_rmwAddF32_self r7 (3 + 112) correction (by rw [hl7]; omega) ho7 hc,
      e7,
      parse_rmwAddF32_disjoint r6 (3 + 112) (3 + 124) per (by omega),
      e6,
      parse_rmwAddF32_disjoint r5 (3 + 112) (3 + 120) per (by omega),
      e5,
      parse_rmwAddF32_disjoint r4 (3 + 112) (3 + 116) per (by omega),
      e4,
      parse_rmwAddF32_disjoint r3 (3 + 112) (3 + 48) correction (by omega),
      e3,
      parse_rmwAddF32_disjoint r2 (3 + 112) (3 + 60) per (by omega),
      e2,
      parse_rmwAddF32_disjoint r1 (3 + 112) (3 + 56) per (by omega),
      e1,
      parse_rmwAddF32_disjoint raw (3 + 112) (3 + 52) per (by omega)]
  · rw [e8,
      parse_rmwAddF32_disjoint r7 (3 + 52) (3 + 112) correction (by omega),
      e7,
      parse_rmwAddF32_disjoint r6 (3 + 52) (3 + 124) per (by omega),
      e6,
      parse_rmwAddF32_disjoint r5 (3 + 52) (3 + 120) per (by omega),
      e5,
      parse_rmwAddF32_disjoint r4 (3 + 52) (3 + 116) per (by omega),
      e4,
      parse_rmwAddF32_disjoint r3 (3 + 52) (3 + 48) correction (by omega),
      e3,
      parse_rmwAddF32_disjoint r2 (3 + 52) (3 + 60) per (by omega),
      e2,
      parse_rmwAddF32_disjoint r1 (3 + 52) (3 + 56) per (by omega),
      e1,
      parse_rmwAddF32_self raw (3 + 52) per (by omega) hok hper]
  · rw [e8,
      parse_rmwAddF32_disjoint r7 (3 + 56) (3 + 112) correction (by omega),
      e7,
      parse_rmwAddF32_disjoint r6 (3 + 56) (3 + 124) per (by omega),
      e6,
      parse_rmwAddF32_disjoint r5 (3 + 56) (3 + 120) per (by omega),
      e5,
      parse_rmwAddF32_disjoint r4 (3 + 56) (3 + 116) per (by omega),
      e4,
      parse_rmwAddF32_disjoint r3 (3 + 56) (3 + 48) correction (by omega),
      e3,
      parse_rmwAddF32_disjoint r2 (3 + 56) (3 + 60) per (by omega),
      e2,
      parse_rmwAddF32_self r1 (3 + 56) per (by rw [hl1]; omega) ho1 hper,
      e1,
      parse_rmwAddF32_disjoint raw (3 + 56) (3 + 52) per (by omega)]
  · rw [e8,
      parse_rmwAddF32_disjoint r7 (3 + 60) (3 + 112) correction (by omega),
      e7,
      parse_rmwAddF32_disjoint r6 (3 + 60) (3 + 124) per (by omega),
      e6,
      parse_rmwAddF32_disjoint r5 (3 + 60) (3 + 120) per (by omega),
      e5,
      parse_rmwAddF32_disjoint r4 (3 + 60) (3 + 116) per (by omega),
      e4,
      parse_rmwAddF32_disjoint r3 (3 + 60) (3 + 48) correction (by omega),
      e3,
      parse_rmwAddF32_self r2 (3 + 60) per (by rw [hl2]; omega) ho2 hper,
      e2,
      parse_rmwAddF32_disjoint r1 (3 + 60) (3 + 56) per (by omega),
      e1,
      parse_rmwAddF32_disjoint raw (3 + 60) (3 + 52) per (by omega)]
  · rw [e8,
      parse_rmwAddF32_disjoint r7 (3 + 116) (3 + 112) correction (by omega),
      e7,
      parse_rmwAddF32_disjoint r6 (3 + 116) (3 + 124) per (by omega),
      e6,
      parse_rmwAddF32_disjoint r5 (3 + 116) (3 + 120) per (by omega),
      e5,
      parse_rmwAddF32_self r4 (3 + 116) per (by rw [hl4]; omega) ho4 hper,
      e4,
      parse_rmwAddF32_disjoint r3 (3 + 116) (3 + 48) correction (by omega),
      e3,
      parse_rmwAddF32_disjoint r2 (3 + 116) (3 + 60) per (by omega),
      e2,
      parse_rmwAddF32_disjoint r1 (3 + 116) (3 + 56) per (by omega),
      e1,
      parse_rmwAddF32_disjoint raw (3 + 116) (3 + 52) per (by omega)]
  · rw [e8,
      parse_rmwAddF32_disjoint r7 (3 + 120) (3 + 112) correction (by omega),
      e7,
      parse_rmwAddF32_disjoint r6 (3 + 120) (3 + 124) per (by omega),
      e6,
      parse_rmwAddF32_self r5 (3 + 120) per (by rw [hl5]; omega) ho5 hper,
      e5,
      parse_rmwAddF32_disjoint r4 (3 + 120) (3 + 116) per (by omega),
      e4,
      parse_rmwAddF32_disjoint r3 (3 + 120) (3 + 48) correction (by omega),
      e3,
      parse_rmwAddF32_disjoint r2 (3 + 120) (3 + 60) per (by omega),
      e2,
      parse_rmwAddF32_disjoint r1 (3 + 120) (3 + 56) per (by omega),
      e1,
      parse_rmwAddF32_disjoint raw (3 + 120) (3 + 52) per (by omega)]
  · rw [e8,
      parse_rmwAddF32_disjoint r7 (3 + 124) (3 + 112) correction (by omega),
      e7,
      parse_rmwAddF32_self r6 (3 + 124) per (by rw [hl6]; omega) ho6 hper,
      e6,
      parse_rmwAddF32_disjoint r5 (3 + 124) (3 + 120) per (by omega),
      e5,
      parse_rmwAddF32_disjoint r4 (3 + 124) (3 + 116) per (by omega),
      e4,
      parse_rmwAddF32_disjoint r3 (3 + 124) (3 + 48) correction (by omega),
      e3,
      parse_rmwAddF32_disjoint r2 (3 + 124) (3 + 60) per (by omega),
      e2,
      parse_rmwAddF32_disjoint r1 (3 + 124) (3 + 56) per (by omega),
      e1,
      parse_rmwAddF32_disjoint raw (3 + 124) (3 + 52) per (by omega)]

theorem byteAt_rmwAddF32_outside (l : List Nat) (o v j : Nat)
    (h : j < o ∨ o + 4 ≤ j) :
    byteAt (rmwAddF32 l o v) j = byteAt l j :=
  byteAt_encode_float32_outside _ _ _ _ h

/-- Bytes outside the eight 4-byte field windows are untouched by
    `applyFields`. -/
theorem byteAt_applyFields_outside (raw : List Nat) (correction : Nat) (j : Nat)
    (h : j < 51 ∨ (67 ≤ j ∧ j < 115) ∨ 131 ≤ j) :
    byteAt (applyFields raw correction) j = byteAt raw j := by
  unfold applyFields
  rw [byteAt_rmwAddF32_outside _ _ _ _ (by omega),
    byteAt_rmwAddF32_outside _ _ _ _ (by omega),
    byteAt_rmwAddF32_outside _ _ _ _ (by omega),
    byteAt_rmwAddF32_outside _ _ _ _ (by omega),
    byteAt_rmwAddF32_outside _ _ _ _ (by omega),
    byteAt_rmwAddF32_outside _ _ _ _ (by omega),
    byteAt_rmwAddF32_outside _ _ _ _ (by omega),
    byteAt_rmwAddF32_outside _ _ _ _ (by omega)]

theorem apply_eq_of_ge (raw : List Nat) (correction : Nat)
    (h : ¬ raw.length < 165) :
    dtsu666_apply_power_correction raw correction =
      (true,
        ((applyFields raw correction).set (raw.length - 2)
          (modbus_crc16 ((applyFields raw correction).take (raw.length - 2)) &&& 255)).set
          (raw.length - 1)
          ((modbus_crc16 ((applyFields raw correction).take (raw.length - 2)) >>> 8) &&& 255)) := by
  unfold dtsu666_apply_power_correction
  rw [if_neg h]

theorem length_apply_snd (raw : List Nat) (correction : Nat) :
    (dtsu666_apply_power_correction raw correction).2.length = raw.length := by
  unfold dtsu666_apply_power_correction
  split
  · rfl
  · simp [length_applyFields]

/-- Sufficient condition for `modbus_validate_crc`. -/
theorem validate_of (frame : List Nat) (h2 : 2 ≤ frame.length)
    (heq : byteAt frame (frame.length - 2) ||| (byteAt frame (frame.length - 1) <<< 8) =
      modbus_crc16 (frame.take (frame.length - 2))) :
    modbus_validate_crc frame = true := by
  unfold modbus_validate_crc
  rw [if_neg (by omega), heq]
  simp

/-- After the engine runs on a long-enough frame, the rewritten trailer is
    the valid CRC of the modified frame. -/
theorem validate_after_apply (raw : List Nat) (correction : Nat)
    (hlen : 165 ≤ raw.length) (hok : bytesOk raw) :
    modbus_validate_crc (dtsu666_apply_power_correction raw correction).2 = true := by
  rw [apply_eq_of_ge raw correction (by omega)]
  set f := applyFields raw correction with ef
  have hlf : f.length = raw.length := by rw [ef]; exact length_applyFields _ _
  set c := modbus_crc16 (f.take (raw.length - 2)) with ec
  have hcb : c < 2 ^ 16 := by
    rw [ec]
    exact modbus_crc16_lt _ (bytesOk_take _ _ (bytesOk_applyFields _ _ hok))
  have hflen : ((f.set (raw.length - 2) (c &&& 255)).set (raw.length - 1)
      ((c >>> 8) &&& 255)).length = raw.length := by
    rw [List.length_set, List.length_set, hlf]
  apply validate_of
  · rw [hflen]
    omega
  · rw [hflen]
    rw [take_set_of_le _ _ _ _ (by omega), take_set_of_le _ _ _ _ (by omega), ← ec]
    rw [byteAt_set_ne _ _ _ _ (by omega),
      byteAt_set_self _ _ _ (by rw [hlf]; omega)]
    rw [byteAt_set_self _ _ _ (by rw [List.length_set, hlf]; omega)]
    rw [and255_eq_mod, and255_eq_mod, Nat.shiftRight_eq_div_pow]
    rw [Nat.lor_comm, shiftLeft_lor_eq_add 8 _ _ (by omega)]
    omega

set_option maxRecDepth 4500 in
/-- CRC of the first 163 bytes of `frameB`, evaluated in chunks to keep
    the reduction depth small. -/
theorem crc_frameB_body : modbus_crc16 (frameB.take 163) = 4470 := by
  rw [show frameB.take 163 =
    ([11, 3, 160, 63, 128, 0, 0, 64, 0, 0, 0, 64, 64, 0, 0, 67, 102, 0, 0, 67, 102, 0, 0, 67, 102, 0, 0, 67, 102, 0, 0, 67, 102] : List Nat) ++
    (([0, 0, 67, 102, 0, 0, 67, 102, 0, 0, 67, 102, 0, 0, 66, 72, 0, 0, 197, 156, 64, 0, 196, 250, 0, 0, 196, 187, 128, 0, 196, 187, 128] : List Nat) ++
    (([0, 66, 200, 0, 0, 66, 200, 0, 0, 66, 200, 0, 0, 66, 200, 0, 0, 66, 200, 0, 0, 66, 200, 0, 0, 66, 200, 0, 0, 66, 200, 0, 0] : List Nat) ++
    (([63, 0, 0, 0, 63, 0, 0, 0, 63, 0, 0, 0, 63, 0, 0, 0, 197, 156, 64, 0, 196, 250, 0, 0, 196, 187, 128, 0, 196, 187, 128, 0, 65] : List Nat) ++
    (([72, 0, 0, 65, 72, 0, 0, 65, 72, 0, 0, 65, 72, 0, 0, 65, 72, 0, 0, 65, 72, 0, 0, 65, 72, 0, 0, 65, 72, 0, 0] : List Nat))))) from by decide]
  unfold modbus_crc16
  rw [List.foldl_append, List.foldl_append, List.foldl_append, List.foldl_append]
  rw [show List.foldl crcByte 0xFFFF [11, 3, 160, 63, 128, 0, 0, 64, 0, 0, 0, 64, 64, 0, 0, 67, 102, 0, 0, 67, 102, 0, 0, 67, 102, 0, 0, 67, 102, 0, 0, 67, 102] = 25043 from by decide]
  rw [show List.foldl crcByte 25043 [0, 0, 67, 102, 0, 0, 67, 102, 0, 0, 67, 102, 0, 0, 66, 72, 0, 0, 197, 156, 64, 0, 196, 250, 0, 0, 196, 187, 128, 0, 196, 187, 128] = 49972 from by decide]
  rw [show List.foldl crcByte 49972 [0, 66, 200, 0, 0, 66, 200, 0, 0, 66, 200, 0, 0, 66, 200, 0, 0, 66, 200, 0, 0, 66, 200, 0, 0, 66, 200, 0, 0, 66, 200, 0, 0] = 13672 from by decide]
  rw [show List.foldl crcByte 13672 [63, 0, 0, 0, 63, 0, 0, 0, 63, 0, 0, 0, 63, 0, 0, 0, 197, 156, 64, 0, 196, 250, 0, 0, 196, 187, 128, 0, 196, 187, 128, 0, 65] = 14123 from by decide]
  exact (show List.foldl crcByte 14123 [72, 0, 0, 65, 72, 0, 0, 65, 72, 0, 0, 65, 72, 0, 0, 65, 72, 0, 0, 65, 72, 0, 0, 65, 72, 0, 0, 65, 72, 0, 0] = 4470 from by decide)

set_option maxRecDepth 2000 in
theorem validate_frameB : modbus_validate_crc frameB = true := by
  apply validate_of
  · decide
  · rw [show frameB.length = 165 from by decide]
    rw [show (165 : Nat) - 2 = 163 from rfl, crc_frameB_body]
    decide

set_option maxRecDepth 2000 in
theorem validate_frameBbad : modbus_validate_crc frameBbad = false := by
  unfold modbus_validate_crc
  rw [if_neg (by decide)]
  rw [show frameBbad.take (frameBbad.length - 2) = frameB.take 163 from by decide,
    crc_frameB_body]
  decide

theorem apply_fst_eq_of_ge (raw : List Nat) (correction : Nat)
    (h : ¬ raw.length < 165) :
    (dtsu666_apply_power_correction raw correction).1 = true := by
  rw [apply_eq_of_ge raw correction h]

theorem apply_snd_eq_of_ge (raw : List Nat) (correction : Nat)
    (h : ¬ raw.length < 165) :
    (dtsu666_apply_power_correction raw correction).2 =
      ((applyFields raw correction).set (raw.length - 2)
        (modbus_crc16 ((applyFields raw correction).take (raw.length - 2)) &&& 255)).set
        (raw.length - 1)
        ((modbus_crc16 ((applyFields raw correction).take (raw.length - 2)) >>> 8) &&& 255) := by
  rw [apply_eq_of_ge raw correction h]

/-- C2: for every frame of length ≥ 165 and every correction pattern `C`,
    `dtsu666_apply_power_correction` succeeds; the raw big-endian float at
    payload offset 48 (total active power) and 112 (total demand) become the
    binary32 sum of the old value and `C`; the floats at payload offsets
    52/56/60 and 116/120/124 become the binary32 sum of the old value and
    `C / 3.0f`; every byte outside those eight 4-byte fields and the 2-byte
    trailer is unchanged; and the rewritten trailer is the valid CRC16 of
    the modified frame. -/
theorem correction_engine_effect (raw : List Nat) (correction : Nat)
    (hlen : 165 ≤ raw.length) (hok : bytesOk raw) (hc : correction < 2 ^ 32) :
    (dtsu666_apply_power_correction raw correction).1 = true ∧
    dtsu666_parse_float32 (dtsu666_apply_power_correction raw correction).2 (3 + 48) =
      f32add (dtsu666_parse_float32 raw (3 + 48)) correction ∧
    dtsu666_parse_float32 (dtsu666_apply_power_correction raw correction).2 (3 + 112) =
      f32add (dtsu666_parse_float32 raw (3 + 112)) correction ∧
    dtsu666_parse_float32 (dtsu666_apply_power_correction raw correction).2 (3 + 52) =
      f32add (dtsu666_parse_float32 raw (3 + 52)) (f32divThree correction) ∧
    dtsu666_parse_float32 (dtsu666_apply_power_correction raw correction).2 (3 + 56) =
      f32add (dtsu666_parse_float32 raw (3 + 56)) (f32divThree correction) ∧
    dtsu666_parse_float32 (dtsu666_apply_power_correction raw correction).2 (3 + 60) =
      f32add (dtsu666_parse_float32 raw (3 + 60)) (f32divThree correction) ∧
    dtsu666_parse_float32 (dtsu666_apply_power_correction raw correction).2 (3 + 116) =
      f32add (dtsu666_parse_float32 raw (3 + 116)) (f32divThree correction) ∧
    dtsu666_parse_float32 (dtsu666_apply_power_correction raw correction).2 (3 + 120) =
      f32add (dtsu666_parse_float32 raw (3 + 120)) (f32divThree correction) ∧
    dtsu666_parse_float32 (dtsu666_apply_power_correction raw correction).2 (3 + 124) =
      f32add (dtsu666_parse_float32 raw (3 + 124)) (f32divThree correction) ∧
    (∀ j, j < raw.length →
      (j < 51 ∨ (67 ≤ j ∧ j < 115) ∨ (131 ≤ j ∧ j < raw.length - 2)) →
      byteAt (dtsu666_apply_power_correction raw correction).2 j = byteAt raw j) ∧
    modbus_validate_crc (dtsu666_apply_power_correction raw correction).2 = true := by
  obtain ⟨p48, p112, p52, p56, p60, p116, p120, p124⟩ :=
    parse_applyFields raw correction hlen hok hc
  have hsnd := apply_snd_eq_of_ge raw correction (by omega)
  refine ⟨apply_fst_eq_of_ge raw correction (by omega), ?_, ?_, ?_, ?_, ?_, ?_, ?_, ?_,
    ?_, validate_after_apply raw correction hlen hok⟩
  · rw [hsnd, parse_float32_set_outside _ _ _ _ (by omega),
      parse_float32_set_outside _ _ _ _ (by omega)]
    exact p48
  · rw [hsnd, parse_float32_set_outside _ _ _ _ (by omega),
      parse_float32_set_outside _ _ _ _ (by omega)]
    exact p112
  · rw [hsnd, parse_float32_set_outside _ _ _ _ (by omega),
      parse_float32_set_outside _ _ _ _ (by omega)]
    exact p52
  · rw [hsnd, parse_float32_set_outside _ _ _ _ (by omega),
      parse_float32_set_outside _ _ _ _ (by omega)]
    exact p56
  · rw [hsnd, parse_float32_set_outside _ _ _ _ (by omega),
      parse_float32_set_outside _ _ _ _ (by omega)]
    exact p60
  · rw [hsnd, parse_float32_set_outside _ _ _ _ (by omega),
      parse_float32_set_outside _ _ _ _ (by omega)]
    exact p116
  · rw [hsnd, parse_float32_set_outside _ _ _ _ (by omega),
      parse_float32_set_outside _ _ _ _ (by omega)]
    exact p120
  · rw [hsnd, parse_float32_set_outside _ _ _ _ (by omega),
      parse_float32_set_outside _ _ _ _ (by omega)]
    exact p124
  · intro j hj hregion
    rw [hsnd, byteAt_set_ne _ _ _ _ (by omega), byteAt_set_ne _ _ _ _ (by omega)]
    exact byteAt_applyFields_outside raw correction j (by omega)

set_option maxRecDepth 2000 in
/-- C2 witness: the engine effect instantiated on `frameB` with the pattern
    of 3000.0f. -/
theorem correction_engine_effect_witness :
    dtsu666_parse_float32 (dtsu666_apply_power_correction frameB 0x453B8000).2 (3 + 48) =
      f32add (dtsu666_parse_float32 frameB (3 + 48)) 0x453B8000 ∧
    modbus_validate_crc (dtsu666_apply_power_correction frameB 0x453B8000).2 = true := by
  have h := correction_engine_effect frameB 0x453B8000 (by decide) (by decide) (by decide)
  exact ⟨h.2.1, h.2.2.2.2.2.2.2.2.2.2⟩

/-- C8: on a frame shorter than 165 bytes the engine returns `false` and
    leaves the buffer byte-for-byte unchanged, whatever the correction. -/
theorem correction_engine_short_buffer (raw : List Nat) (correction : Nat)
    (h : raw.length < 165) :
    dtsu666_apply_power_correction raw correction = (false, raw) := by
  unfold dtsu666_apply_power_correction
  rw [if_pos h]

/-- C8 witness: a 100-byte buffer is refused untouched. -/
theorem correction_engine_short_buffer_witness :
    dtsu666_apply_power_correction (List.replicate 100 7) 0x453B8000 =
      (false, List.replicate 100 7) :=
  correction_engine_short_buffer _ _ (by simp)

/-- C10: for every frame of length ≥ 165 the engine returns `true` and
    leaves the frame CRC-valid, with no precondition on the incoming
    trailer — it recomputes the CRC unconditionally. -/
theorem correction_engine_revalidates (raw : List Nat) (correction : Nat)
    (hlen : 165 ≤ raw.length) (hok : bytesOk raw) :
    (dtsu666_apply_power_correction raw correction).1 = true ∧
    modbus_validate_crc (dtsu666_apply_power_correction raw correction).2 = true :=
  ⟨apply_fst_eq_of_ge raw correction (by omega),
   validate_after_apply raw correction hlen hok⟩

set_option maxRecDepth 4000 in
/-- C10 witness: `frameBbad` has an invalid trailer on entry, yet the engine
    accepts it and leaves a CRC-valid frame. -/
theorem correction_engine_revalidates_witness :
    modbus_validate_crc frameBbad = false ∧
    (dtsu666_apply_power_correction frameBbad 0x453B8000).1 = true ∧
    modbus_validate_crc (dtsu666_apply_power_correction frameBbad 0x453B8000).2 = true := by
  have h := correction_engine_revalidates frameBbad 0x453B8000 (by decide) (by decide)
  exact ⟨validate_frameBbad, h.1, h.2⟩

theorem and128_ne_zero_iff (b : Nat) (hb : b < 256) :
    ((b &&& 128) ≠ 0) ↔ 128 ≤ b := by
  rw [show (128 : Nat) = 2 ^ 7 by norm_num, Nat.and_two_pow,
    Nat.testBit_to_div_mod]
  by_cases hp : b / 2 ^ 7 % 2 = 1 <;> simp [hp] <;> omega

theorem and127_eq_sub (b : Nat) (hb1 : 128 ≤ b) (hb2 : b < 256) :
    b &&& 127 = b - 128 := by
  rw [show (127 : Nat) = 2 ^ 7 - 1 by norm_num, Nat.and_pow_two_sub_one_eq_mod]
  omega

set_option maxRecDepth 2000 in
/-- C5 counterexample: `frame06` is CRC-valid, its function code is neither
    0x03 nor 0x04, yet `modbus_parse` classifies it as a Request, not
    Unknown. -/
theorem frame_parser_unknown_counterexample :
    modbus_validate_crc frame06 = true ∧
    byteAt frame06 1 ≠ 3 ∧ byteAt frame06 1 ≠ 4 ∧
    (byteAt frame06 1 &&& 128) = 0 ∧
    (modbus_parse frame06).map ModbusMessage.type = some MbType.request ∧
    (modbus_parse frame06).map ModbusMessage.type ≠ some MbType.unknown := by
  refine ⟨by decide, by decide, by decide, by decide, by decide, by decide⟩

/-- C5 (amended): `modbus_parse` rejects a frame iff its length is < 4 or
    its CRC check fails; on CRC-valid frames of length ≥ 4 it classifies by
    the code's ordered dispatch: high-bit function code with length ≥ 5 is
    an Exception (high bit cleared, `exception_code = frame[2]`); function
    0x03/0x04 with length 8 is a Request (big-endian start address at
    offset 2, quantity at offset 4), with length `frame[2] + 5` (length ≠ 8)
    a Reply, otherwise Unknown; function 0x06 with length 8 is a Request;
    function 0x10 with length 8 is a Reply and with length `frame[6] + 9`
    (≥ 9) a Request, otherwise Unknown; any other function code is Unknown
    with `valid` still true. -/
theorem frame_parser_contract (frame : List Nat) (hok : bytesOk frame) :
    (modbus_parse frame = none ↔
      frame.length < 4 ∨ modbus_validate_crc frame = false) ∧
    (modbus_validate_crc frame = true → 4 ≤ frame.length →
      ((128 ≤ byteAt frame 1 → 5 ≤ frame.length →
        modbus_parse frame = some { valid := true, id := byteAt frame 0, fc := byteAt frame 1 - 128, len := frame.length, type := .exception, exCode := byteAt frame 2 }) ∧
      ((byteAt frame 1 = 3 ∨ byteAt frame 1 = 4) → frame.length = 8 →
        modbus_parse frame = some { valid := true, id := byteAt frame 0, fc := byteAt frame 1, len := frame.length, type := .request, startAddr := modbus_be16 frame 2, qty := modbus_be16 frame 4 }) ∧
      ((byteAt frame 1 = 3 ∨ byteAt frame 1 = 4) → frame.length ≠ 8 →
        frame.length = byteAt frame 2 + 5 →
        modbus_parse frame = some { valid := true, id := byteAt frame 0, fc := byteAt frame 1, len := frame.length, type := .reply, byteCount := byteAt frame 2 }) ∧
      ((byteAt frame 1 = 3 ∨ byteAt frame 1 = 4) → frame.length ≠ 8 →
        frame.length ≠ byteAt frame 2 + 5 →
        modbus_parse frame = some { valid := true, id := byteAt frame 0, fc := byteAt frame 1, len := frame.length, type := .unknown }) ∧
      (byteAt frame 1 = 6 → frame.length = 8 →
        modbus_parse frame = some { valid := true, id := byteAt frame 0, fc := 6, len := frame.length, type := .request, wrAddr := modbus_be16 frame 2, wrValue := modbus_be16 frame 4 }) ∧
      (byteAt frame 1 = 6 → frame.length ≠ 8 →
        modbus_parse frame = some { valid := true, id := byteAt frame 0, fc := 6, len := frame.length, type := .unknown }) ∧
      (byteAt frame 1 = 16 → frame.length = 8 →
        modbus_parse frame = some { valid := true, id := byteAt frame 0, fc := 16, len := frame.length, type := .reply, wrAddr := modbus_be16 frame 2, wrQty := modbus_be16 frame 4 }) ∧
      (byteAt frame 1 = 16 → frame.length ≠ 8 → 9 ≤ frame.length →
        frame.length = byteAt frame 6 + 9 →
        modbus_parse frame = some { valid := true, id := byteAt frame 0, fc := 16, len := frame.length, type := .request, wrAddr := modbus_be16 frame 2, wrQty := modbus_be16 frame 4, wrByteCount := byteAt frame 6 }) ∧
      (¬(128 ≤ byteAt frame 1 ∧ 5 ≤ frame.length) →
        byteAt frame 1 ≠ 3 → byteAt frame 1 ≠ 4 → byteAt frame 1 ≠ 6 →
        byteAt frame 1 ≠ 16 →
        modbus_parse frame = some { valid := true, id := byteAt frame 0, fc := byteAt frame 1, len := frame.length, type := .unknown }))) := by
  have hfc : byteAt frame 1 < 256 := byteAt_lt256 _ _ hok
  constructor
  · unfold modbus_parse
    split_ifs <;> simp_all
  · intro hv h4
    have hvne : ¬ modbus_validate_crc frame = false := by simp [hv]
    refine ⟨?_, ?_, ?_, ?_, ?_, ?_, ?_, ?_, ?_⟩
    · intro hbit h5
      unfold modbus_parse
      rw [if_neg (by omega), if_neg hvne,
        if_pos ⟨(and128_ne_zero_iff _ hfc).mpr hbit, h5⟩,
        and127_eq_sub _ hbit hfc]
    · intro h34 h8
      have hno : ¬((byteAt frame 1 &&& 128) ≠ 0 ∧ 5 ≤ frame.length) := by
        rcases h34 with h | h <;> rw [h] <;> exact fun hcon => hcon.1 (by decide)
      unfold modbus_parse
      rw [if_neg (by omega), if_neg hvne, if_neg hno, if_pos h34, if_pos h8]
    · intro h34 h8 hbc
      have hno : ¬((byteAt frame 1 &&& 128) ≠ 0 ∧ 5 ≤ frame.length) := by
        rcases h34 with h | h <;> rw [h] <;> exact fun hcon => hcon.1 (by decide)
      unfold modbus_parse
      rw [if_neg (by omega), if_neg hvne, if_neg hno, if_pos h34, if_neg h8,
        if_pos hbc]
    · intro h34 h8 hbc
      have hno : ¬((byteAt frame 1 &&& 128) ≠ 0 ∧ 5 ≤ frame.length) := by
        rcases h34 with h | h <;> rw [h] <;> exact fun hcon => hcon.1 (by decide)
      unfold modbus_parse
      rw [if_neg (by omega), if_neg hvne, if_neg hno, if_pos h34, if_neg h8,
        if_neg hbc]
    · intro h6 h8
      have hno : ¬((byteAt frame 1 &&& 128) ≠ 0 ∧ 5 ≤ frame.length) := by
        rw [h6]
        exact fun hcon => hcon.1 (by decide)
      unfold modbus_parse
      rw [if_neg (by omega), if_neg hvne, if_neg hno,
        if_neg (by rw [h6]; simp), if_pos h6, if_pos h8, h6]
    · intro h6 h8
      have hno : ¬((byteAt frame 1 &&& 128) ≠ 0 ∧ 5 ≤ frame.length) := by
        rw [h6]
        exact fun hcon => hcon.1 (by decide)
      unfold modbus_parse
      rw [if_neg (by omega), if_neg hvne, if_neg hno,
        if_neg (by rw [h6]; simp), if_pos h6, if_neg h8, h6]
    · intro h16 h8
      have hno : ¬((byteAt frame 1 &&& 128) ≠ 0 ∧ 5 ≤ frame.length) := by
        rw [h16]
        exact fun hcon => hcon.1 (by decide)
      unfold modbus_parse
      rw [if_neg (by omega), if_neg hvne, if_neg hno,
        if_neg (by rw [h16]; simp), if_neg (by rw [h16]; simp), if_pos h16,
        if_pos h8, h16]
    · intro h16 h8 h9 hbc
      have hno : ¬((byteAt frame 1 &&& 128) ≠ 0 ∧ 5 ≤ frame.length) := by
        rw [h16]
        exact fun hcon => hcon.1 (by decide)
      unfold modbus_parse
      rw [if_neg (by omega), if_neg hvne, if_neg hno,
        if_neg (by rw [h16]; simp), if_neg (by rw [h16]; simp), if_pos h16,
        if_neg h8, if_pos ⟨h9, hbc⟩, h16]
    · intro hno0 h3 h4' h6 h16
      have hno : ¬((byteAt frame 1 &&& 128) ≠ 0 ∧ 5 ≤ frame.length) := by
        rw [and128_ne_zero_iff _ hfc]
        exact hno0
      unfold modbus_parse
      rw [if_neg (by omega), if_neg hvne, if_neg hno,
        if_neg (by simp [h3, h4']), if_neg h6, if_neg h16]

set_option maxRecDepth 2000 in
/-- C5 witness: the amended contract instantiated on the 0x06 request
    `frame06` and the exception reply `frameExc`. -/
theorem frame_parser_contract_witness :
    modbus_parse frame06 = some { valid := true, id := 1, fc := 6, len := 8, type := .request, wrAddr := 1, wrValue := 2 } ∧
    modbus_parse frameExc = some { valid := true, id := 11, fc := 3, len := 5, type := .exception, exCode := 2 } := by
  constructor
  · have h := ((frame_parser_contract frame06 (by decide)).2 (by decide)
      (by decide)).2.2.2.2.1 (by decide) (by decide)
    rw [h]
    decide
  · have h := ((frame_parser_contract frameExc (by decide)).2 (by decide)
      (by decide)).1 (by decide) (by decide)
    rw [h]
    decide

/-! ### Correction threshold (C3) -/

theorem f32abs_eq (a : Nat) (ha : a < 2 ^ 32) :
    f32abs a = if a < 2 ^ 31 then a else a - 2 ^ 31 := by
  unfold f32abs
  split <;> omega

theorem expField_f32abs (a : Nat) (ha : a < 2 ^ 32) :
    expField (f32abs a) = expField a := by
  rw [f32abs_eq a ha]
  unfold expField
  split <;> omega

theorem fracField_f32abs (a : Nat) (ha : a < 2 ^ 32) :
    fracField (f32abs a) = fracField a := by
  rw [f32abs_eq a ha]
  unfold fracField
  split <;> omega

theorem signBit_f32abs (a : Nat) : signBit (f32abs a) = 0 := by
  unfold signBit f32abs
  omega

theorem isNaNF32_f32abs (a : Nat) (ha : a < 2 ^ 32) :
    isNaNF32 (f32abs a) = isNaNF32 a := by
  unfold isNaNF32
  rw [expField_f32abs a ha, fracField_f32abs a ha]

theorem isInfF32_f32abs (a : Nat) (ha : a < 2 ^ 32) :
    isInfF32 (f32abs a) = isInfF32 a := by
  unfold isInfF32
  rw [expField_f32abs a ha, fracField_f32abs a ha]

theorem toRatF32_f32abs (a : Nat) (ha : a < 2 ^ 32) :
    toRatF32 (f32abs a) = |toRatF32 a| := by
  unfold toRatF32
  rw [expField_f32abs a ha, fracField_f32abs a ha, signBit_f32abs a]
  have hmag : (0:ℚ) ≤
      (if expField a = 0 then (fracField a : ℚ) * pow2z (-149)
       else ((2 ^ 23 + fracField a : Nat) : ℚ) * pow2z ((expField a : Int) - 150)) := by
    split
    · have := pow2z_pos (-149)
      positivity
    · have := pow2z_pos ((expField a : Int) - 150)
      positivity
  rw [if_neg (by norm_num)]
  by_cases hs : signBit a = 1
  · rw [if_pos hs, abs_neg, abs_of_nonneg hmag]
  · rw [if_neg hs, abs_of_nonneg hmag]

theorem f32le_finite (a b : Nat)
    (hna : isNaNF32 a = false) (hnb : isNaNF32 b = false)
    (hia : isInfF32 a = false) (hib : isInfF32 b = false) :
    f32le a b = decide (toRatF32 a ≤ toRatF32 b) := by
  unfold f32le
  rw [if_neg (by simp [hna, hnb]), if_neg (by simp [hia]), if_neg (by simp [hib])]

set_option maxRecDepth 4000 in
theorem toRat_threshold : toRatF32 CORRECTION_THRESHOLD = 1000 := by
  with_unfolding_all decide

theorem threshold_finite :
    isNaNF32 CORRECTION_THRESHOLD = false ∧ isInfF32 CORRECTION_THRESHOLD = false := by
  decide

set_option maxRecDepth 4000 in
/-- C3: for valid, fresh, non-NaN, non-infinite wallbox power `w`, the
    orchestrator's activation flag `fabsf(power_correction) >=
    CORRECTION_THRESHOLD` (line 72 of `modbus_proxy.c`, applied to the
    result of `http_calculate_power_correction`) is set iff `|w| > 1000`;
    when it is clear the computed correction is `0.0f` and the engine is
    never invoked — `correctionPath` forwards the reply unmodified. -/
theorem correction_threshold_strict (e : EvccState)
    (hv : e.valid = true) (hf : e.fresh = true) (hw : e.chargePower < 2 ^ 32)
    (hnan : isNaNF32 e.chargePower = false) (hinf : isInfF32 e.chargePower = false) :
    (f32ge (f32abs (http_calculate_power_correction e)) CORRECTION_THRESHOLD = true ↔
      1000 < |toRatF32 e.chargePower|) ∧
    (f32ge (f32abs (http_calculate_power_correction e)) CORRECTION_THRESHOLD = false →
      http_calculate_power_correction e = 0 ∧
      ∀ dtuBytes data, correctionPath dtuBytes data e = (dtuBytes, data, false)) := by
  have hget : http_get_evcc_data e = (e.chargePower, true) := by
    unfold http_get_evcc_data
    rw [hv, hf]
    rfl
  have habs_na : isNaNF32 (f32abs e.chargePower) = false := by
    rw [isNaNF32_f32abs _ hw]; exact hnan
  have habs_ia : isInfF32 (f32abs e.chargePower) = false := by
    rw [isInfF32_f32abs _ hw]; exact hinf
  have hle : f32le (f32abs e.chargePower) CORRECTION_THRESHOLD =
      decide (|toRatF32 e.chargePower| ≤ 1000) := by
    rw [f32le_finite _ _ habs_na threshold_finite.1 habs_ia threshold_finite.2,
      toRatF32_f32abs _ hw, toRat_threshold]
  by_cases hcase : |toRatF32 e.chargePower| ≤ 1000
  · -- below or at threshold: correction is zero and stays inactive
    have hpc : http_calculate_power_correction e = 0 := by
      unfold http_calculate_power_correction
      rw [hget, hle]
      simp [hcase]
    have hact : f32ge (f32abs (http_calculate_power_correction e))
        CORRECTION_THRESHOLD = false := by
      rw [hpc]
      with_unfolding_all decide
    refine ⟨?_, fun _ => ⟨hpc, fun dtuBytes data => ?_⟩⟩
    · rw [hact]
      constructor
      · intro h
        exact absurd h (by simp)
      · intro h
        exact absurd h (not_lt.mpr hcase)
    · unfold correctionPath
      rw [hact, if_neg (by simp)]
  · -- strictly above the threshold: the wallbox power itself is active
    have hpc : http_calculate_power_correction e = e.chargePower := by
      unfold http_calculate_power_correction
      rw [hget, hle]
      simp [hcase]
    have hact : f32ge (f32abs (http_calculate_power_correction e))
        CORRECTION_THRESHOLD = true := by
      rw [hpc]
      unfold f32ge
      rw [f32le_finite _ _ threshold_finite.1 habs_na threshold_finite.2 habs_ia,
        toRatF32_f32abs _ hw, toRat_threshold]
      simp
      linarith [not_le.mp hcase]
    refine ⟨?_, fun hcon => absurd hact (by simp [hcon])⟩
    rw [hact]
    simp
    exact not_le.mp hcase

set_option maxRecDepth 4000 in
/-- C3 witness: the theorem instantiated at a valid, fresh wallbox reading of
    `3000.0f` (pattern `0x453B8000`). -/
theorem correction_threshold_strict_witness :
    (f32ge (f32abs (http_calculate_power_correction
        { chargePower := 0x453B8000, valid := true, fresh := true }))
        CORRECTION_THRESHOLD = true ↔
      1000 < |toRatF32 0x453B8000|) ∧
    (f32ge (f32abs (http_calculate_power_correction
        { chargePower := 0x453B8000, valid := true, fresh := true }))
        CORRECTION_THRESHOLD = false →
      http_calculate_power_correction
        { chargePower := 0x453B8000, valid := true, fresh := true } = 0 ∧
      ∀ dtuBytes data, correctionPath dtuBytes data
        { chargePower := 0x453B8000, valid := true, fresh := true } =
        (dtuBytes, data, false)) :=
  correction_threshold_strict
    { chargePower := 0x453B8000, valid := true, fresh := true }
    rfl rfl (by decide) (by decide) (by decide)

/-- C9: when the upstream frame parses as a request for slave 11 and the
    downstream reply parses as an exception, one orchestrator iteration
    forwards exactly the received downstream bytes upstream and leaves every
    field of the shared store untouched (only the error counter moves,
    matching lines 65–67 and 113–114 of `modbus_proxy.c`). -/
theorem exception_passthrough (sunBytes dtuBytes : List Nat) (e : EvccState)
    (store : SharedDtsu) (errors updates now : Nat)
    (sunMsg dtuMsg : ModbusMessage)
    (hsun : modbus_parse sunBytes = some sunMsg)
    (hid : sunMsg.id = 11) (hreq : sunMsg.type = .request)
    (hdtu : modbus_parse dtuBytes = some dtuMsg)
    (hexc : dtuMsg.type = .exception) :
    modbus_proxy_step (some sunBytes) (some dtuBytes) e store errors updates now =
      { forwardedDownstream := some sunBytes, forwardedUpstream := some dtuBytes,
        store := store, proxyErrors := errors + 1, dtsuUpdates := updates } := by
  simp only [modbus_proxy_step, hsun, hdtu]
  rw [if_pos ⟨hid, hreq⟩, if_pos hexc]

set_option maxRecDepth 2000 in
/-- C9 witness: the concrete request `frameReq11` and the concrete exception
    reply `frameExc` (exception code 2), on the empty store. -/
theorem exception_passthrough_witness :
    modbus_proxy_step (some frameReq11) (some frameExc)
        { chargePower := 0, valid := false, fresh := false }
        storeZero 0 0 5 =
      { forwardedDownstream := some frameReq11, forwardedUpstream := some frameExc,
        store := storeZero, proxyErrors := 1, dtsuUpdates := 0 } :=
  exception_passthrough frameReq11 frameExc
    { chargePower := 0, valid := false, fresh := false } storeZero 0 0 5
    { valid := true, id := 11, fc := 3, type := .request, len := 8,
      startAddr := 0, qty := 40 }
    { valid := true, id := 11, fc := 3, type := .exception, len := 5, exCode := 2 }
    (by decide) rfl rfl (by decide) rfl

set_option maxRecDepth 4500 in
theorem crc_frame166_body :
    modbus_crc16 (frame166.take 164) = 63136 := by
  rw [show frame166.take 164 =
    (([11, 3, 161] ++ List.replicate 30 0 : List Nat) ++
    ((List.replicate 33 (0 : Nat)) ++ ((List.replicate 33 (0 : Nat)) ++
    ((List.replicate 33 (0 : Nat)) ++ (List.replicate 32 (0 : Nat)))))) from by decide]
  unfold modbus_crc16
  rw [List.foldl_append, List.foldl_append, List.foldl_append, List.foldl_append]
  rw [show List.foldl crcByte 0xFFFF ([11, 3, 161] ++ List.replicate 30 0) = 11537
    from by decide]
  rw [show List.foldl crcByte 11537 (List.replicate 33 (0 : Nat)) = 15032
    from by decide]
  rw [show List.foldl crcByte 15032 (List.replicate 33 (0 : Nat)) = 17982
    from by decide]
  rw [show List.foldl crcByte 17982 (List.replicate 33 (0 : Nat)) = 8559
    from by decide]
  exact show List.foldl crcByte 8559 (List.replicate 32 (0 : Nat)) = 63136
    from by decide

set_option maxRecDepth 2000 in
theorem validate_frame166 : modbus_validate_crc frame166 = true := by
  apply validate_of
  · decide
  · rw [show frame166.length = 166 from by decide,
      show (166 : Nat) - 2 = 164 from rfl, crc_frame166_body]
    decide

set_option maxRecDepth 2000 in
theorem parse_frame166 :
    modbus_parse frame166 = some { valid := true, id := 11, fc := 3, type := .reply, len := 166, byteCount := 161 } := by
  unfold modbus_parse
  rw [if_neg (by decide), if_neg (by rw [validate_frame166]; decide),
    if_neg (fun hcon => hcon.1 (by decide)), if_pos (Or.inl (by decide)),
    if_neg (by decide), if_pos (by decide)]
  decide

set_option maxRecDepth 4000 in
theorem parse_resp_frame166 :
    dtsu666_parse_response frame166 = some dtsuZeroNeg := by decide

set_option maxRecDepth 4000 in
theorem corrpath_inactive_idle (dtuBytes : List Nat) (data : Dtsu666Data) :
    correctionPath dtuBytes data evccIdle = (dtuBytes, data, false) := by
  have h : f32ge (f32abs (http_calculate_power_correction evccIdle))
      CORRECTION_THRESHOLD = false := by with_unfolding_all decide
  unfold correctionPath
  rw [h, if_neg (by decide)]

/-- The store-update branch of `modbus_proxy_task` (lines 68–112 of
    `modbus_proxy.c`), abstractly: a parsed request for slave 11 plus a
    non-exception function-3 reply of length ≥ 165 that decodes. -/
theorem proxy_step_meter (sunBytes dtuBytes : List Nat) (e : EvccState)
    (store : SharedDtsu) (errors updates now : Nat)
    (sunMsg dtuMsg : ModbusMessage) (d : Dtsu666Data)
    (hsun : modbus_parse sunBytes = some sunMsg)
    (hid : sunMsg.id = 11) (hreq : sunMsg.type = .request)
    (hdtu : modbus_parse dtuBytes = some dtuMsg)
    (hexc : dtuMsg.type ≠ .exception)
    (hfc : dtuMsg.fc = 3) (hlen : 165 ≤ dtuMsg.len)
    (hparse : dtsu666_parse_response dtuBytes = some d) :
    modbus_proxy_step (some sunBytes) (some dtuBytes) e store errors updates now =
      ⟨some sunBytes, some (correctionPath dtuBytes d e).1,
       { valid := true, timestamp := now,
         response_buffer := (correctionPath dtuBytes d e).1,
         response_length := dtuMsg.len,
         parsed_data := (correctionPath dtuBytes d e).2.1,
         update_count := store.update_count + 1 },
       errors, updates + 1⟩ := by
  simp only [modbus_proxy_step, hsun, hdtu, hparse]
  rw [if_pos ⟨hid, hreq⟩, if_neg (by simp [hexc]), if_pos ⟨hfc, hlen⟩]

set_option maxRecDepth 4000 in
/-- C4: the claimed bound is FALSE — a CRC-valid 166-byte function-0x03
    reply reaches the correction / store-update path of `modbus_proxy_task`
    and is stored with `response_length = 166 > 165`.  In the C sources the
    same iteration executes `memcpy(corrected_response, dtu_msg.raw,
    dtu_msg.len)` into `uint8_t corrected_response[165]` (when correction is
    active) and `memcpy(shared_dtsu_data.response_buffer, dtu_msg.raw,
    dtu_msg.len)` into a 165-byte store buffer: both overflow. -/
theorem meter_path_length_overflow :
    frame166.length = 166 ∧
    modbus_proxy_step (some frameReq11) (some frame166) evccIdle storeZero 0 0 5 =
      { forwardedDownstream := some frameReq11, forwardedUpstream := some frame166,
        store := { valid := true, timestamp := 5, response_buffer := frame166,
                   response_length := 166, parsed_data := dtsuZeroNeg,
                   update_count := 1 },
        proxyErrors := 0, dtsuUpdates := 1 } := by
  refine ⟨by decide, ?_⟩
  have hreq : modbus_parse frameReq11 = some { valid := true, id := 11, fc := 3, type := .request, len := 8, startAddr := 0, qty := 40 } := by decide
  rw [proxy_step_meter frameReq11 frame166 evccIdle storeZero 0 0 5 _ _ dtsuZeroNeg
    hreq rfl rfl parse_frame166 (by decide) rfl (by decide) parse_resp_frame166,
    corrpath_inactive_idle]
  rfl

set_option maxRecDepth 4000 in
theorem parse_frameB_msg :
    modbus_parse frameB = some { valid := true, id := 11, fc := 3, type := .reply, len := 165, byteCount := 160 } := by
  unfold modbus_parse
  rw [if_neg (by decide), if_neg (by rw [validate_frameB]; decide),
    if_neg (fun hcon => hcon.1 (by decide)), if_pos (Or.inl (by decide)),
    if_neg (by decide), if_pos (by decide)]
  decide

set_option maxRecDepth 4000 in
theorem parse_resp_frameB :
    dtsu666_parse_response frameB = some dataB := by decide

set_option maxRecDepth 4000 in
theorem parse_resp_frameBcorr :
    dtsu666_parse_response frameBcorr = some dataBcorr := by decide

set_option maxRecDepth 4000 in
theorem applyFields_frameB :
    applyFields frameB 0x453B8000 = frameBmid := by
  with_unfolding_all decide

set_option maxRecDepth 4500 in
theorem crc_frameBcorr_body :
    modbus_crc16 (frameBcorr.take 163) = 11118 := by
  rw [show frameBcorr.take 163 =
    (([11, 3, 160, 63, 128, 0, 0, 64, 0, 0, 0, 64, 64, 0, 0, 67, 102, 0, 0, 67, 102, 0, 0, 67, 102, 0, 0, 67, 102, 0, 0, 67, 102] : List Nat) ++
    (([0, 0, 67, 102, 0, 0, 67, 102, 0, 0, 67, 102, 0, 0, 66, 72, 0, 0, 196, 250, 0, 0, 196, 122, 0, 0, 195, 250, 0, 0, 195, 250, 0] : List Nat) ++
    (([0, 66, 200, 0, 0, 66, 200, 0, 0, 66, 200, 0, 0, 66, 200, 0, 0, 66, 200, 0, 0, 66, 200, 0, 0, 66, 200, 0, 0, 66, 200, 0, 0] : List Nat) ++
    (([63, 0, 0, 0, 63, 0, 0, 0, 63, 0, 0, 0, 63, 0, 0, 0, 196, 250, 0, 0, 196, 122, 0, 0, 195, 250, 0, 0, 195, 250, 0, 0, 65] : List Nat) ++
    (([72, 0, 0, 65, 72, 0, 0, 65, 72, 0, 0, 65, 72, 0, 0, 65, 72, 0, 0, 65, 72, 0, 0, 65, 72, 0, 0, 65, 72, 0, 0] : List Nat)))))) from by decide]
  unfold modbus_crc16
  rw [List.foldl_append, List.foldl_append, List.foldl_append, List.foldl_append]
  rw [show List.foldl crcByte 0xFFFF [11, 3, 160, 63, 128, 0, 0, 64, 0, 0, 0, 64, 64, 0, 0, 67, 102, 0, 0, 67, 102, 0, 0, 67, 102, 0, 0, 67, 102, 0, 0, 67, 102] = 25043 from by decide]
  rw [show List.foldl crcByte 25043 [0, 0, 67, 102, 0, 0, 67, 102, 0, 0, 67, 102, 0, 0, 66, 72, 0, 0, 196, 250, 0, 0, 196, 122, 0, 0, 195, 250, 0, 0, 195, 250, 0] = 45970 from by decide]
  rw [show List.foldl crcByte 45970 [0, 66, 200, 0, 0, 66, 200, 0, 0, 66, 200, 0, 0, 66, 200, 0, 0, 66, 200, 0, 0, 66, 200, 0, 0, 66, 200, 0, 0, 66, 200, 0, 0] = 53182 from by decide]
  rw [show List.foldl crcByte 53182 [63, 0, 0, 0, 63, 0, 0, 0, 63, 0, 0, 0, 63, 0, 0, 0, 196, 250, 0, 0, 196, 122, 0, 0, 195, 250, 0, 0, 195, 250, 0, 0, 65] = 57738 from by decide]
  exact show List.foldl crcByte 57738 [72, 0, 0, 65, 72, 0, 0, 65, 72, 0, 0, 65, 72, 0, 0, 65, 72, 0, 0, 65, 72, 0, 0, 65, 72, 0, 0, 65, 72, 0, 0] = 11118 from by decide

set_option maxRecDepth 4000 in
theorem apply_frameB_eq :
    dtsu666_apply_power_correction frameB 0x453B8000 = (true, frameBcorr) := by
  rw [apply_eq_of_ge frameB 0x453B8000 (by decide)]
  rw [applyFields_frameB, show frameB.length = 165 from by decide,
    show (165 : Nat) - 2 = 163 from rfl, show (165 : Nat) - 1 = 164 from rfl,
    show frameBmid.take 163 = frameBcorr.take 163 from by decide,
    crc_frameBcorr_body]
  decide

set_option maxRecDepth 4000 in
theorem corrpath_frameB :
    correctionPath frameB dataB evcc3000 = (frameBcorr, dataBcorr, true) := by
  have hpc : http_calculate_power_correction evcc3000 = 0x453B8000 := by
    with_unfolding_all decide
  have hact : f32ge (f32abs (0x453B8000 : Nat)) CORRECTION_THRESHOLD = true := by
    with_unfolding_all decide
  unfold correctionPath
  rw [hpc, if_pos hact, apply_frameB_eq]
  simp only [parse_resp_frameBcorr]
  rw [if_pos trivial]

set_option maxRecDepth 4000 in
theorem step_frameB_eq :
    modbus_proxy_step (some frameReq11) (some frameB) evcc3000 storeZero 0 0 7 =
      { forwardedDownstream := some frameReq11, forwardedUpstream := some frameBcorr, store := { valid := true, timestamp := 7, response_buffer := frameBcorr, response_length := 165, parsed_data := dataBcorr, update_count := 1 }, proxyErrors := 0, dtsuUpdates := 1 } := by
  have hreq : modbus_parse frameReq11 = some { valid := true, id := 11, fc := 3, type := .request, len := 8, startAddr := 0, qty := 40 } := by decide
  rw [proxy_step_meter frameReq11 frameB evcc3000 storeZero 0 0 7 _ _ dataB
    hreq rfl rfl parse_frameB_msg (by decide) rfl (by decide) parse_resp_frameB,
    corrpath_frameB]
  rfl

set_option maxRecDepth 4000 in
/-- C1 (corrected): in the claim's scenario — upstream 8-byte read request
    for slave 11, downstream valid 165-byte function-3 reply decoding
    `power_total = 5000.0` W (`frameB`), wallbox power 3000 W, threshold
    1000 W — the orchestrator forwards `frameBcorr`, whose decode has
    `power_total = 2000.0` W: the engine adds `+3000` to the WIRE float and
    the decoder's `power_scale = -1.0f` flips the sign, so the decoded power
    DECREASES by the correction (the claimed `8000.0` W is wrong); each
    per-phase power decreases by 1000 W, the CRC is valid, and every byte
    outside the eight corrected float fields and the trailer is unchanged. -/
theorem corrected_transaction :
    modbus_proxy_step (some frameReq11) (some frameB) evcc3000 storeZero 0 0 7 = { forwardedDownstream := some frameReq11, forwardedUpstream := some frameBcorr, store := { valid := true, timestamp := 7, response_buffer := frameBcorr, response_length := 165, parsed_data := dataBcorr, update_count := 1 }, proxyErrors := 0, dtsuUpdates := 1 } ∧
    (toRatF32 dataB.power_total).num = 5000 ∧ (toRatF32 dataB.power_total).den = 1 ∧
    (toRatF32 evcc3000.chargePower).num = 3000 ∧ (toRatF32 evcc3000.chargePower).den = 1 ∧
    toRatF32 CORRECTION_THRESHOLD = 1000 ∧
    (toRatF32 dataBcorr.power_total).num = 2000 ∧ (toRatF32 dataBcorr.power_total).den = 1 ∧
    toRatF32 dataB.power_L1 - toRatF32 dataBcorr.power_L1 = 1000 ∧
    toRatF32 dataB.power_L2 - toRatF32 dataBcorr.power_L2 = 1000 ∧
    toRatF32 dataB.power_L3 - toRatF32 dataBcorr.power_L3 = 1000 ∧
    modbus_validate_crc frameBcorr = true ∧
    (∀ i, i < 163 → (i < 51 ∨ (67 ≤ i ∧ i < 115) ∨ 131 ≤ i) → byteAt frameBcorr i = byteAt frameB i) := by
  refine ⟨step_frameB_eq, ?_, ?_, ?_, ?_, ?_, ?_, ?_, ?_, ?_, ?_, ?_, ?_⟩
  · with_unfolding_all decide
  · with_unfolding_all decide
  · with_unfolding_all decide
  · with_unfolding_all decide
  · with_unfolding_all decide
  · with_unfolding_all decide
  · with_unfolding_all decide
  · with_unfolding_all decide
  · with_unfolding_all decide
  · with_unfolding_all decide
  · apply validate_of
    · decide
    · rw [show frameBcorr.length = 165 from by decide,
        show (165 : Nat) - 2 = 163 from rfl, crc_frameBcorr_body]
      decide
  · decide

set_option maxRecDepth 4000 in
/-- C1 counterexample to the claim as written: in exactly the claimed
    scenario, the forwarded frame's decoded `power_total` is NOT the pattern
    of the claimed `8000.0f` (`0x45FA0000`) — it is `2000.0f`. -/
theorem corrected_transaction_counterexample :
    (toRatF32 0x45FA0000).num = 8000 ∧ (toRatF32 0x45FA0000).den = 1 ∧
    (modbus_proxy_step (some frameReq11) (some frameB) evcc3000 storeZero 0 0 7).store.parsed_data.power_total ≠ 0x45FA0000 := by
  refine ⟨by with_unfolding_all decide, by with_unfolding_all decide, ?_⟩
  rw [step_frameB_eq]
  decide

theorem encodeFields_eq_encAll (data : Dtsu666Data) (buffer : List Nat) :
    encodeFields data buffer =
      encAll (fieldsOf data) (((buffer.set 0 0x0B).set 1 0x03).set 2 0xA0) 3 := rfl

theorem length_encAll (vs l : List Nat) (o : Nat) :
    (encAll vs l o).length = l.length := by
  induction vs generalizing l o with
  | nil => rfl
  | cons v vs ih =>
    show (encAll vs (dtsu666_encode_float32 v l o) (o + 4)).length = l.length
    rw [ih, length_encode_float32]

theorem parse_encAll_before (vs l : List Nat) (o o' : Nat) (h : o + 4 ≤ o') :
    dtsu666_parse_float32 (encAll vs l o') o = dtsu666_parse_float32 l o := by
  induction vs generalizing l o' with
  | nil => rfl
  | cons v vs ih =>
    show dtsu666_parse_float32
      (encAll vs (dtsu666_encode_float32 v l o') (o' + 4)) o = _
    rw [ih _ (o' + 4) (by omega), parse_encode_float32_disjoint v l o o' (Or.inl h)]

theorem parse_encAll_at (vs : List Nat) (l : List Nat) (o k : Nat)
    (hk : k < vs.length) (hv : ∀ v ∈ vs, v < 2 ^ 32)
    (hlen : o + 4 * vs.length ≤ l.length) :
    dtsu666_parse_float32 (encAll vs l o) (o + 4 * k) = vs.getD k 0 := by
  induction vs generalizing l o k with
  | nil => simp at hk
  | cons v vs ih =>
    show dtsu666_parse_float32
      (encAll vs (dtsu666_encode_float32 v l o) (o + 4)) (o + 4 * k) = _
    cases k with
    | zero =>
      rw [List.getD_cons_zero, show o + 4 * 0 = o from by omega,
        parse_encAll_before vs _ o (o + 4) (by omega)]
      exact parse_encode_float32 v l o
        (by simp only [List.length_cons] at hlen; omega) (hv v (by simp))
    | succ k =>
      rw [List.getD_cons_succ, show o + 4 * (k + 1) = o + 4 + 4 * k from by omega]
      exact ih (dtsu666_encode_float32 v l o) (o + 4) k (by simpa using hk)
        (fun w hw => hv w (by simp [hw]))
        (by rw [length_encode_float32]; simp only [List.length_cons] at hlen; omega)

theorem byteAt_drop (l : List Nat) (n i : Nat) :
    byteAt (l.drop n) i = byteAt l (n + i) := by
  unfold byteAt
  rw [List.getD_eq_getElem?_getD, List.getD_eq_getElem?_getD, List.getElem?_drop]

theorem parse_float32_drop3 (l : List Nat) (o : Nat) :
    dtsu666_parse_float32 (l.drop 3) o = dtsu666_parse_float32 l (3 + o) := by
  unfold dtsu666_parse_float32
  rw [byteAt_drop, byteAt_drop, byteAt_drop, byteAt_drop]
  simp only [Nat.add_assoc]

theorem length_encodeFields (data : Dtsu666Data) (buffer : List Nat) :
    (encodeFields data buffer).length = buffer.length := by
  rw [encodeFields_eq_encAll, length_encAll]
  simp

theorem parse_encodeFields_read (data : Dtsu666Data) (buffer : List Nat)
    (a b o k : Nat) (hlen : 165 ≤ buffer.length)
    (hb : ∀ w ∈ fieldsOf data, w < 2 ^ 32)
    (ho : o = 4 * k) (hk : k < 40) :
    dtsu666_parse_float32
      ((((encodeFields data buffer).set 163 a).set 164 b).drop 3) o =
      (fieldsOf data).getD k 0 := by
  subst ho
  rw [parse_float32_drop3,
    parse_float32_set_outside _ 164 b _ (Or.inr (by omega)),
    parse_float32_set_outside _ 163 a _ (Or.inr (by omega)),
    encodeFields_eq_encAll]
  exact parse_encAll_at (fieldsOf data) _ 3 k
    (by rw [show (fieldsOf data).length = 40 from rfl]; omega) hb
    (by rw [show (fieldsOf data).length = 40 from rfl]
        simp only [List.length_set]
        omega)

theorem parse_response_encodeDTSU (data : Dtsu666Data) (buffer : List Nat)
    (hlen : 165 ≤ buffer.length)
    (hb : ∀ w ∈ fieldsOf data, w < 2 ^ 32)
    (hpow : ∀ w ∈ powerFields data, isNaNF32 w = false ∧ w < 2 ^ 32) :
    (encodeDTSU666Response data buffer).bind dtsu666_parse_response = some data := by
  unfold encodeDTSU666Response
  rw [if_neg (by omega), Option.some_bind']
  unfold dtsu666_parse_response
  rw [if_neg (by
    simp only [List.length_set, length_encodeFields]
    omega)]
  rw [parse_encodeFields_read data buffer _ _ 0 0 hlen hb rfl (by omega),
    parse_encodeFields_read data buffer _ _ 4 1 hlen hb rfl (by omega),
    parse_encodeFields_read data buffer _ _ 8 2 hlen hb rfl (by omega),
    parse_encodeFields_read data buffer _ _ 12 3 hlen hb rfl (by omega),
    parse_encodeFields_read data buffer _ _ 16 4 hlen hb rfl (by omega),
    parse_encodeFields_read data buffer _ _ 20 5 hlen hb rfl (by omega),
    parse_encodeFields_read data buffer _ _ 24 6 hlen hb rfl (by omega),
    parse_encodeFields_read data buffer _ _ 28 7 hlen hb rfl (by omega),
    parse_encodeFields_read data buffer _ _ 32 8 hlen hb rfl (by omega),
    parse_encodeFields_read data buffer _ _ 36 9 hlen hb rfl (by omega),
    parse_encodeFields_read data buffer _ _ 40 10 hlen hb rfl (by omega),
    parse_encodeFields_read data buffer _ _ 44 11 hlen hb rfl (by omega),
    parse_encodeFields_read data buffer _ _ 48 12 hlen hb rfl (by omega),
    parse_encodeFields_read data buffer _ _ 52 13 hlen hb rfl (by omega),
    parse_encodeFields_read data buffer _ _ 56 14 hlen hb rfl (by omega),
    parse_encodeFields_read data buffer _ _ 60 15 hlen hb rfl (by omega),
    parse_encodeFields_read data buffer _ _ 64 16 hlen hb rfl (by omega),
    parse_encodeFields_read data buffer _ _ 68 17 hlen hb rfl (by omega),
    parse_encodeFields_read data buffer _ _ 72 18 hlen hb rfl (by omega),
    parse_encodeFields_read data buffer _ _ 76 19 hlen hb rfl (by omega),
    parse_encodeFields_read data buffer _ _ 80 20 hlen hb rfl (by omega),
    parse_encodeFields_read data buffer _ _ 84 21 hlen hb rfl (by omega),
    parse_encodeFields_read data buffer _ _ 88 22 hlen hb rfl (by omega),
    parse_encodeFields_read data buffer _ _ 92 23 hlen hb rfl (by omega),
    parse_encodeFields_read data buffer _ _ 96 24 hlen hb rfl (by omega),
    parse_encodeFields_read data buffer _ _ 100 25 hlen hb rfl (by omega),
    parse_encodeFields_read data buffer _ _ 104 26 hlen hb rfl (by omega),
    parse_encodeFields_read data buffer _ _ 108 27 hlen hb rfl (by omega),
    parse_encodeFields_read data buffer _ _ 112 28 hlen hb rfl (by omega),
    parse_encodeFields_read data buffer _ _ 116 29 hlen hb rfl (by omega),
    parse_encodeFields_read data buffer _ _ 120 30 hlen hb rfl (by omega),
    parse_encodeFields_read data buffer _ _ 124 31 hlen hb rfl (by omega),
    parse_encodeFields_read data buffer _ _ 128 32 hlen hb rfl (by omega),
    parse_encodeFields_read data buffer _ _ 132 33 hlen hb rfl (by omega),
    parse_encodeFields_read data buffer _ _ 136 34 hlen hb rfl (by omega),
    parse_encodeFields_read data buffer _ _ 140 35 hlen hb rfl (by omega),
    parse_encodeFields_read data buffer _ _ 144 36 hlen hb rfl (by omega),
    parse_encodeFields_read data buffer _ _ 148 37 hlen hb rfl (by omega),
    parse_encodeFields_read data buffer _ _ 152 38 hlen hb rfl (by omega),
    parse_encodeFields_read data buffer _ _ 156 39 hlen hb rfl (by omega)]
  show some {
      current_L1 := data.current_L1
      current_L2 := data.current_L2
      current_L3 := data.current_L3
      voltage_LN_avg := data.voltage_LN_avg
      voltage_L1N := data.voltage_L1N
      voltage_L2N := data.voltage_L2N
      voltage_L3N := data.voltage_L3N
      voltage_LL_avg := data.voltage_LL_avg
      voltage_L1L2 := data.voltage_L1L2
      voltage_L2L3 := data.voltage_L2L3
      voltage_L3L1 := data.voltage_L3L1
      frequency := data.frequency
      power_total := f32mulNegOne (f32mulNegOne data.power_total)
      power_L1 := f32mulNegOne (f32mulNegOne data.power_L1)
      power_L2 := f32mulNegOne (f32mulNegOne data.power_L2)
      power_L3 := f32mulNegOne (f32mulNegOne data.power_L3)
      reactive_total := data.reactive_total
      reactive_L1 := data.reactive_L1
      reactive_L2 := data.reactive_L2
      reactive_L3 := data.reactive_L3
      apparent_total := data.apparent_total
      apparent_L1 := data.apparent_L1
      apparent_L2 := data.apparent_L2
      apparent_L3 := data.apparent_L3
      pf_total := data.pf_total
      pf_L1 := data.pf_L1
      pf_L2 := data.pf_L2
      pf_L3 := data.pf_L3
      demand_total := f32mulNegOne (f32mulNegOne data.demand_total)
      demand_L1 := f32mulNegOne (f32mulNegOne data.demand_L1)
      demand_L2 := f32mulNegOne (f32mulNegOne data.demand_L2)
      demand_L3 := f32mulNegOne (f32mulNegOne data.demand_L3)
      import_total := data.import_total
      import_L1 := data.import_L1
      import_L2 := data.import_L2
      import_L3 := data.import_L3
      export_total := data.export_total
      export_L1 := data.export_L1
      export_L2 := data.export_L2
      export_L3 := data.export_L3 } = some data
  rw [f32mulNegOne_involutive data.power_total (hpow data.power_total (by simp [powerFields])).2 (hpow data.power_total (by simp [powerFields])).1,
    f32mulNegOne_involutive data.power_L1 (hpow data.power_L1 (by simp [powerFields])).2 (hpow data.power_L1 (by simp [powerFields])).1,
    f32mulNegOne_involutive data.power_L2 (hpow data.power_L2 (by simp [powerFields])).2 (hpow data.power_L2 (by simp [powerFields])).1,
    f32mulNegOne_involutive data.power_L3 (hpow data.power_L3 (by simp [powerFields])).2 (hpow data.power_L3 (by simp [powerFields])).1,
    f32mulNegOne_involutive data.demand_total (hpow data.demand_total (by simp [powerFields])).2 (hpow data.demand_total (by simp [powerFields])).1,
    f32mulNegOne_involutive data.demand_L1 (hpow data.demand_L1 (by simp [powerFields])).2 (hpow data.demand_L1 (by simp [powerFields])).1,
    f32mulNegOne_involutive data.demand_L2 (hpow data.demand_L2 (by simp [powerFields])).2 (hpow data.demand_L2 (by simp [powerFields])).1,
    f32mulNegOne_involutive data.demand_L3 (hpow data.demand_L3 (by simp [powerFields])).2 (hpow data.demand_L3 (by simp [powerFields])).1]

/-- C7: reading-codec round trip.  Full-reading level
    (`encodeDTSU666Response`, `Modbus_ProxyV1/src/dtsu666.cpp`): for every
    reading whose 40 field patterns are 32-bit and whose 8 sign-flipped
    power/demand fields are not NaN, encoding into any buffer of length
    ≥ 165 and decoding the result restores the reading exactly, field by
    field.  Single-field level (`main/dtsu666.c`): `dtsu666_parse_float32`
    after `dtsu666_encode_float32` returns the value bit-for-bit. -/
theorem reading_codec_roundtrip (r : Dtsu666Data) (buffer buf : List Nat)
    (o v : Nat) (hlen : 165 ≤ buffer.length)
    (hb : ∀ w ∈ fieldsOf r, w < 2 ^ 32)
    (hpow : ∀ w ∈ powerFields r, isNaNF32 w = false ∧ w < 2 ^ 32)
    (hlen2 : o + 4 ≤ buf.length) (hv : v < 2 ^ 32) :
    (encodeDTSU666Response r buffer).bind dtsu666_parse_response = some r ∧
    dtsu666_parse_float32 (dtsu666_encode_float32 v buf o) o = v :=
  ⟨parse_response_encodeDTSU r buffer hlen hb hpow,
   parse_encode_float32 v buf o hlen2 hv⟩

set_option maxRecDepth 2000 in
/-- C7 witness: the concrete reading `dataB` round-trips through a 165-byte
    scratch buffer, and a concrete single-field store/load at offset 2 of an
    8-byte buffer returns the pattern of `5000.0f` bit-for-bit. -/
theorem reading_codec_roundtrip_witness :
    (encodeDTSU666Response dataB (List.replicate 165 0)).bind
      dtsu666_parse_response = some dataB ∧
    dtsu666_parse_float32
      (dtsu666_encode_float32 0x459C4000 (List.replicate 8 0) 2) 2 = 0x459C4000 :=
  reading_codec_roundtrip dataB (List.replicate 165 0) (List.replicate 8 0)
    2 0x459C4000 (by decide) (by decide) (by decide) (by decide) (by decide)

end ModbusProxy
